import Mathlib

/-!
Verification development for the `vcardai` business-card pipeline.

The repository has three Python source files:
  * `src/backend/app.py`        — FastAPI variant of the service
  * `src/api/upload.py`         — serverless upload handler
  * `src/api/generate-vcf.py`   — serverless vCard handler

This file gives a shallow embedding of the pure/deterministic parts of
those files.  External capabilities are modelled as function parameters:

  * the `phonenumbers` library is a triple
    `parse : String → String → Option P`, `is_valid : P → Bool`,
    `format_number : P → String` over an abstract type `P` of parsed
    numbers (a `parse` result of `none` models a raised
    `NumberParseException`);
  * `json.loads` is a parameter `jsonParse : String → Option JVal`
    (`none` models a raised `json.JSONDecodeError`);
  * each chat-completions call is an `Except String String` value: the
    raw response text on success, the exception message on failure.

Python runtime values that flow through the handlers (results of
`json.loads`, dict lookups, iteration) are modelled by the inductive
type `JVal` below.
-/

/-- Characters stripped by Python's `str.strip()` with no argument
(the Unicode whitespace set used by `str.isspace`). -/
def pyIsSpace (c : Char) : Bool :=
  c ∈ [' ', '\t', '\n', '\r', '\x0b', '\x0c', '\x1c', '\x1d', '\x1e', '\x1f',
       '\x85', '\xa0', '\u1680', '\u2000', '\u2001', '\u2002', '\u2003',
       '\u2004', '\u2005', '\u2006', '\u2007', '\u2008', '\u2009', '\u200a',
       '\u2028', '\u2029', '\u202f', '\u205f', '\u3000']

/-- Drop characters satisfying `p` from both ends of a character list
(the common core of Python's `str.strip()` and `str.strip("`")`). -/
def stripEdges (p : Char → Bool) (l : List Char) : List Char :=
  ((l.dropWhile p).reverse.dropWhile p).reverse

/-- Python `content.strip()` (no argument: strip whitespace at both ends). -/
def pyStrip (s : String) : String :=
  String.mk (stripEdges pyIsSpace s.data)

/-- Python `s.startswith(pre)`. -/
def pyStartsWith (s pre : String) : Bool :=
  pre.data.isPrefixOf s.data

/-- ASCII lower-casing of one character.  Python's `str.lower()` also
maps non-ASCII letters; the classifier responses reasoned about below
are ASCII, where the two agree. -/
def pyLowerChar (c : Char) : Char :=
  if 'A' ≤ c ∧ c ≤ 'Z' then Char.ofNat (c.toNat + 32) else c

/-- Python `s.lower()` (ASCII fragment, see `pyLowerChar`). -/
def pyLower (s : String) : String :=
  String.mk (s.data.map pyLowerChar)

/-- Whether `sep` occurs as a contiguous sublist of `l`. -/
def containsSeq (sep l : List Char) : Bool :=
  (List.range (l.length + 1)).any (fun i => sep.isPrefixOf (l.drop i))

/-- The suffix of `l` strictly after the last occurrence of `sep`, or `l`
itself when `sep` does not occur.  For a separator with no self-overlap
(such as `"json"`, used below) this is exactly Python's
`l.split(sep)[-1]`. -/
def afterLastSeq (sep l : List Char) : List Char :=
  match ((List.range (l.length + 1)).filter
      (fun i => sep.isPrefixOf (l.drop i))).getLast? with
  | some i => l.drop (i + sep.length)
  | none => l

/-- The character list of the separator `"json"`. -/
def jsonTag : List Char := ['j', 's', 'o', 'n']

/-- Python `name.split(" ", 1)`: the text before the first space, and,
when a space occurs, the remainder after that first space. -/
def pySplitOnceSpace : List Char → List Char × Option (List Char)
  | [] => ([], none)
  | c :: rest =>
    if c = ' ' then ([], some rest)
    else
      let r := pySplitOnceSpace rest
      (c :: r.1, r.2)

/-- Content clean-up performed by both variants of
`extract_business_card_info` before `json.loads`:

```python
content = response.choices[0].message.content.strip()
if content.startswith("```"):
    content = content.strip("`").split("json")[-1].strip()
```
-/
def process_content (content : String) : String :=
  let c := pyStrip content
  if pyStartsWith c "\x60\x60\x60" then
    pyStrip (String.mk (afterLastSeq jsonTag
      (stripEdges (fun ch => ch = '\x60') c.data)))
  else c

/-- JSON/Python values flowing through the handlers: the results of
`json.loads` and the values stored in request dicts.  Objects are
association lists; `json.loads` produces objects with pairwise distinct
keys, and lookups below take the first binding. -/
inductive JVal where
  | null : JVal
  | bool : Bool → JVal
  | num : Int → JVal
  | str : String → JVal
  | arr : List JVal → JVal
  | obj : List (String × JVal) → JVal

/-- Python truthiness of a `JVal` (`if v:`). -/
def pyTruthy : JVal → Bool
  | .null => false
  | .bool b => b
  | .num n => n ≠ 0
  | .str s => s ≠ ""
  | .arr xs => !xs.isEmpty
  | .obj kvs => !kvs.isEmpty

/-- Python `d[k]`-style lookup returning `none` when the key is absent
(`d.get(k)` is this composed with a `None` default). -/
def jget (kvs : List (String × JVal)) (k : String) : Option JVal :=
  (kvs.find? (fun kv => kv.1 = k)).map (fun kv => kv.2)

/-- Python `d.get(k, dflt)`. -/
def pyGet (kvs : List (String × JVal)) (k : String) (dflt : JVal) : JVal :=
  (jget kvs k).getD dflt

mutual

/-- Python `repr` of a `JVal` (the string-quoting branch is the
simplified `'…'` form: the quote-selection and character-escaping rules
of CPython's `repr` are not modelled; no claim below evaluates `repr`
on a string containing a quote or backslash). -/
def pyReprJ : JVal → String
  | .null => "None"
  | .bool b => if b then "True" else "False"
  | .num n => toString n
  | .str s => "'" ++ s ++ "'"
  | .arr xs => "[" ++ String.intercalate ", " (pyReprArr xs) ++ "]"
  | .obj kvs => "\x7b" ++ String.intercalate ", " (pyReprObj kvs) ++ "\x7d"

/-- `repr` of each element of a Python list. -/
def pyReprArr : List JVal → List String
  | [] => []
  | v :: vs => pyReprJ v :: pyReprArr vs

/-- `repr` of each binding of a Python dict. -/
def pyReprObj : List (String × JVal) → List String
  | [] => []
  | kv :: kvs => ("'" ++ kv.1 ++ "': " ++ pyReprJ kv.2) :: pyReprObj kvs

end

/-- Python `str(v)`, as used by f-string interpolation in
`create_vcf_content`. -/
def pyStr : JVal → String
  | .str s => s
  | v => pyReprJ v

/-- Python `for x in v` over a `JVal`: lists yield their elements,
strings yield their characters (as one-character strings), dicts yield
their keys, and `None`/booleans/numbers raise a `TypeError`. -/
def pyIterate : JVal → Except String (List JVal)
  | .arr xs => .ok xs
  | .str s => .ok (s.data.map (fun c => .str (String.singleton c)))
  | .obj kvs => .ok (kvs.map (fun kv => .str kv.1))
  | .null => .error "TypeError: NoneType object is not iterable"
  | .bool _ => .error "TypeError: bool object is not iterable"
  | .num _ => .error "TypeError: int object is not iterable"

/-- Translation of `normalize_phone_numbers` (identical in
`src/backend/app.py` and `src/api/generate-vcf.py`):

```python
def normalize_phone_numbers(numbers, default_region="BD"):
    normalized = []
    for num in numbers:
        try:
            parsed = phonenumbers.parse(num, default_region)
            if phonenumbers.is_valid_number(parsed):
                normalized.append(phonenumbers.format_number(parsed, phonenumbers.PhoneNumberFormat.E164))
        except Exception:
            pass
    return normalized
```

The elements are arbitrary Python values (`JVal`): `phonenumbers.parse`
raises on a non-string argument and the `except` swallows it, so
non-string elements are dropped.  For string elements the opaque
library calls are the `parse`/`is_valid`/`format_number` parameters;
`parse … = none` models a raised `NumberParseException`, likewise
swallowed. -/
def normalize_phone_numbers {P : Type} (parse : String → String → Option P)
    (is_valid : P → Bool) (format_number : P → String)
    (numbers : List JVal) (default_region : String) : List String :=
  numbers.foldl
    (fun normalized num =>
      match num with
      | .str s =>
        match parse s default_region with
        | some parsed =>
          if is_valid parsed then normalized ++ [format_number parsed]
          else normalized
        | none => normalized
      | _ => normalized)
    []

/-- The `if name := contact_info.get("name"): …` block of
`create_vcf_content`.  A falsy `name` emits nothing; a truthy string is
split at the first space into `first`/`last` (`last` empty when there
is no space); a truthy non-string raises `AttributeError` at
`name.split`. -/
def vcfNameStep (nameV : JVal) : Except String (List String) :=
  if pyTruthy nameV then
    match nameV with
    | .str name =>
      let parts := pySplitOnceSpace name.data
      let first := String.mk parts.1
      let last := match parts.2 with
        | some r => String.mk r
        | none => ""
      .ok ["N:" ++ last ++ ";" ++ first ++ ";;;", "FN:" ++ name]
    | _ => .error "AttributeError: object has no attribute split"
  else .ok []

/-- Line construction of `create_vcf_content` (identical in
`src/backend/app.py` and `src/api/generate-vcf.py`):

```python
def create_vcf_content(contact_info):
    lines = ["BEGIN:VCARD", "VERSION:3.0"]
    if name := contact_info.get("name"):
        parts = name.split(" ", 1)
        first = parts[0]
        last = parts[1] if len(parts) > 1 else ""
        lines.append(f"N:{last};{first};;;")
        lines.append(f"FN:{name}")
    for title in contact_info.get("titles", []):
        lines.append(f"TITLE:{title}")
    if org := contact_info.get("organization"):
        lines.append(f"ORG:{org}")
    phones = normalize_phone_numbers(contact_info.get("phone_numbers", []))
    for phone in phones:
        lines.append(f"TEL;TYPE=CELL:{phone}")
    if email := contact_info.get("email"):
        lines.append(f"EMAIL:{email}")
    if address := contact_info.get("address"):
        lines.append(f"ADR:;;{address}")
    if url := contact_info.get("url"):
        lines.append(f"URL:{url}")
    lines.append("END:VCARD")
    return "\n".join(lines)
```

This function builds the `lines` list; `create_vcf_content` below joins
it with newlines.  The `Except` layer carries the exceptions the
Python code can raise on ill-shaped dicts: `AttributeError` from
`name.split`, and `TypeError` from iterating a non-iterable `titles`
or `phone_numbers` value (the iteration of `phone_numbers` happens
inside `normalize_phone_numbers`; hoisting it before the `org` line is
unobservable because the `org` step cannot raise). -/
def create_vcf_lines {P : Type} (parse : String → String → Option P)
    (is_valid : P → Bool) (format_number : P → String)
    (contact_info : List (String × JVal)) : Except String (List String) :=
  match vcfNameStep (pyGet contact_info "name" .null) with
  | .error e => .error e
  | .ok nameLines =>
    match pyIterate (pyGet contact_info "titles" (.arr [])) with
    | .error e => .error e
    | .ok titleItems =>
      match pyIterate (pyGet contact_info "phone_numbers" (.arr [])) with
      | .error e => .error e
      | .ok phoneItems =>
        .ok
          (["BEGIN:VCARD", "VERSION:3.0"]
            ++ nameLines
            ++ titleItems.map (fun t => "TITLE:" ++ pyStr t)
            ++ (if pyTruthy (pyGet contact_info "organization" .null) then
                  ["ORG:" ++ pyStr (pyGet contact_info "organization" .null)]
                else [])
            ++ (normalize_phone_numbers parse is_valid format_number
                  phoneItems "BD").map (fun phone => "TEL;TYPE=CELL:" ++ phone)
            ++ (if pyTruthy (pyGet contact_info "email" .null) then
                  ["EMAIL:" ++ pyStr (pyGet contact_info "email" .null)]
                else [])
            ++ (if pyTruthy (pyGet contact_info "address" .null) then
                  ["ADR:;;" ++ pyStr (pyGet contact_info "address" .null)]
                else [])
            ++ (if pyTruthy (pyGet contact_info "url" .null) then
                  ["URL:" ++ pyStr (pyGet contact_info "url" .null)]
                else [])
            ++ ["END:VCARD"])

/-- `create_vcf_content`: the line list joined with `"\n".join(lines)`. -/
def create_vcf_content {P : Type} (parse : String → String → Option P)
    (is_valid : P → Bool) (format_number : P → String)
    (contact_info : List (String × JVal)) : Except String String :=
  match create_vcf_lines parse is_valid format_number contact_info with
  | .ok lines => .ok (String.intercalate "\n" lines)
  | .error e => .error e

/-- The placeholder record returned by `src/api/upload.py` when the
model response is not valid JSON. -/
def placeholder_record : JVal :=
  .obj [("name", .str "Unable to parse name"),
        ("titles", .arr []),
        ("organization", .str "Unable to parse organization"),
        ("phone_numbers", .arr []),
        ("email", .str ""),
        ("address", .str ""),
        ("url", .str "")]

/-- `extract_business_card_info` from `src/api/upload.py`, from the
point where the chat-completions call has produced an outcome `chat`
(response text, or exception message).  The `try` block covers the call
and `json.loads`: a `JSONDecodeError` yields the placeholder record,
while a failure of the call itself is re-raised as
`"OpenAI API error: …"`. -/
def extract_business_card_info_api (jsonParse : String → Option JVal)
    (chat : Except String String) : Except String JVal :=
  match chat with
  | .error e => .error ("OpenAI API error: " ++ e)
  | .ok content =>
    match jsonParse (process_content content) with
    | some v => .ok v
    | none => .ok placeholder_record

/-- `extract_business_card_info` from `src/backend/app.py`: same
clean-up, but no `try`/`except`, so both a chat failure and a
`json.loads` failure propagate to the caller. -/
def extract_business_card_info_backend (jsonParse : String → Option JVal)
    (chat : Except String String) : Except String JVal :=
  match chat with
  | .error e => .error e
  | .ok content =>
    match jsonParse (process_content content) with
    | some v => .ok v
    | none => .error "JSONDecodeError: Expecting value"

/-- The `is_card.startswith("yes")` test applied by both upload
handlers to the classifier response:
`classification.choices[0].message.content.strip().lower()`. -/
def is_card_response (content : String) : Bool :=
  pyStartsWith (pyLower (pyStrip content)) "yes"

/-- The rejection body both upload handlers produce for a non-card
image. -/
def not_card_error : JVal :=
  .obj [("error", .str "❌ This doesn't seem like a business card. Please upload a clear business card photo.")]

/-- `handler.do_POST` from `src/api/upload.py`, from the point where a
valid image has been decoded (multipart parsing and image validation
are upstream, external steps).  Parameters: the outcome of the
classification call, the `json.loads` capability, and the outcome of
the extraction chat call.  The result is the JSON value written as the
response body.  A failed classification call is caught, logged and
ignored (`except Exception as e: print(...)`), so the handler falls
through to extraction. -/
def do_POST_upload_api (classification : Except String String)
    (jsonParse : String → Option JVal) (chat : Except String String) : JVal :=
  match classification with
  | .ok content =>
    if !is_card_response content then not_card_error
    else
      match extract_business_card_info_api jsonParse chat with
      | .ok data => data
      | .error e =>
        .obj [("error", .str ("Error extracting business card information: " ++ e))]
  | .error _ =>
    match extract_business_card_info_api jsonParse chat with
    | .ok data => data
    | .error e =>
      .obj [("error", .str ("Error extracting business card information: " ++ e))]

/-- `upload_image` from `src/backend/app.py`.  The whole body sits in
one `try`/`except Exception` that returns
`{"error": f"Error processing image: {e}"}`; there is no inner handler
around the classification call or around `json.loads`, so either
failure lands in that generic handler.  `content_type` is the uploaded
file's content type (the handler first rejects non-`image/` uploads). -/
def upload_image_backend (content_type : String)
    (classification : Except String String)
    (jsonParse : String → Option JVal) (chat : Except String String) : JVal :=
  if !pyStartsWith content_type "image/" then
    .obj [("error", .str "Please upload a valid image file (JPG, PNG, etc.)")]
  else
    match classification with
    | .error e => .obj [("error", .str ("Error processing image: " ++ e))]
    | .ok content =>
      if !is_card_response content then not_card_error
      else
        match extract_business_card_info_backend jsonParse chat with
        | .ok data => data
        | .error e => .obj [("error", .str ("Error processing image: " ++ e))]

/-- Shape of the HTTP responses produced by the vCard endpoint. -/
structure HttpResponse where
  status : Nat
  content_type : String
  content_disposition : Option String
  body : String
deriving DecidableEq

/-- Python `v.replace(' ', '_').replace('/', '_')` on the filename
source value; a non-string raises `AttributeError`. -/
def sanitize_filename (v : JVal) : Except String String :=
  match v with
  | .str s => .ok ((s.replace " " "_").replace "/" "_")
  | _ => .error "AttributeError: object has no attribute replace"

/-- The `generate-vcf` endpoint (`generate_vcf` in `src/backend/app.py`
and `handler.do_POST` in `src/api/generate-vcf.py` — identical logic),
from the point where the request body has been parsed by `json.loads`
into the dict `data`:

* falsy `data.get("name")` → HTTP 400 with
  `{"error": "Name is required to generate vCard"}`;
* otherwise serialize, sanitize the filename, and answer 200 with
  `text/vcard` and a `Content-Disposition` header;
* any exception while doing so → HTTP 500 with `{"error": str(e)}`. -/
def generate_vcf {P : Type} (parse : String → String → Option P)
    (is_valid : P → Bool) (format_number : P → String)
    (data : List (String × JVal)) : HttpResponse :=
  if !pyTruthy (pyGet data "name" .null) then
    ⟨400, "application/json", none,
      "\x7b\"error\": \"Name is required to generate vCard\"\x7d"⟩
  else
    match create_vcf_content parse is_valid format_number data with
    | .error e =>
      ⟨500, "application/json", none, "\x7b\"error\": \"" ++ e ++ "\"\x7d"⟩
    | .ok vcf =>
      match sanitize_filename (pyGet data "name" (.str "contact")) with
      | .error e =>
        ⟨500, "application/json", none, "\x7b\"error\": \"" ++ e ++ "\"\x7d"⟩
      | .ok filename =>
        ⟨200, "text/vcard",
          some ("attachment; filename=" ++ filename ++ ".vcf"), vcf⟩

/-- The element filter implemented by one iteration of the
`normalize_phone_numbers` loop. -/
def normalizeOne {P : Type} (parse : String → String → Option P)
    (is_valid : P → Bool) (format_number : P → String)
    (default_region : String) : JVal → Option String :=
  fun num =>
    match num with
    | .str s =>
      match parse s default_region with
      | some parsed =>
        if is_valid parsed then some (format_number parsed) else none
      | none => none
    | _ => none

/-- A Python value that is a string. -/
def isStrItem : JVal → Bool
  | .str _ => true
  | _ => false

/-- A scalar field slot holding `None` or a string. -/
def strOrNull : JVal → Bool
  | .null => true
  | .str _ => true
  | _ => false

/-- A list field slot holding a list of strings. -/
def strListVal : JVal → Bool
  | .arr xs => xs.all isStrItem
  | _ => false

/-- A list field slot holding `None` or a list of strings (the literal
precondition of claim C10, which lets the value be `null`). -/
def strListOrNull : JVal → Bool
  | .null => true
  | .arr xs => xs.all isStrItem
  | _ => false

/-- The literal precondition stated by claim C10: every known field,
when present and non-null, has its declared shape. -/
def c10StatedShape (kvs : List (String × JVal)) : Bool :=
  strOrNull (pyGet kvs "name" .null)
    && strListOrNull (pyGet kvs "titles" (.arr []))
    && strOrNull (pyGet kvs "organization" .null)
    && strListOrNull (pyGet kvs "phone_numbers" (.arr []))
    && strOrNull (pyGet kvs "email" .null)
    && strOrNull (pyGet kvs "address" .null)
    && strOrNull (pyGet kvs "url" .null)

/-- The well-shaped contact dicts: scalar fields absent, `null` or
strings; `titles` and `phone_numbers` absent or lists of strings (in
particular not `null`). -/
def wellShapedContact (kvs : List (String × JVal)) : Bool :=
  strOrNull (pyGet kvs "name" .null)
    && strListVal (pyGet kvs "titles" (.arr []))
    && strOrNull (pyGet kvs "organization" .null)
    && strListVal (pyGet kvs "phone_numbers" (.arr []))
    && strOrNull (pyGet kvs "email" .null)
    && strOrNull (pyGet kvs "address" .null)
    && strOrNull (pyGet kvs "url" .null)

/-- The element list of a `JVal` known to be a list. -/
def jarrElems : JVal → List JVal
  | .arr xs => xs
  | _ => []

/-- Lines contributed by the `name` field. -/
def nameSeg (v : JVal) : List String :=
  match v with
  | .str name =>
    if name = "" then []
    else
      let parts := pySplitOnceSpace name.data
      let first := String.mk parts.1
      let last := match parts.2 with
        | some r => String.mk r
        | none => ""
      ["N:" ++ last ++ ";" ++ first ++ ";;;", "FN:" ++ name]
  | _ => []

/-- Lines contributed by the `titles` field. -/
def titleSeg (v : JVal) : List String :=
  (jarrElems v).map (fun t => "TITLE:" ++ pyStr t)

/-- Line contributed by the `organization` field. -/
def orgSeg (v : JVal) : List String :=
  if pyTruthy v then ["ORG:" ++ pyStr v] else []

/-- Lines contributed by the `phone_numbers` field. -/
def telSeg {P : Type} (parse : String → String → Option P)
    (is_valid : P → Bool) (format_number : P → String) (v : JVal) : List String :=
  (normalize_phone_numbers parse is_valid format_number (jarrElems v) "BD").map
    (fun phone => "TEL;TYPE=CELL:" ++ phone)

/-- Line contributed by the `email` field. -/
def emailSeg (v : JVal) : List String :=
  if pyTruthy v then ["EMAIL:" ++ pyStr v] else []

/-- Line contributed by the `address` field. -/
def adrSeg (v : JVal) : List String :=
  if pyTruthy v then ["ADR:;;" ++ pyStr v] else []

/-- Line contributed by the `url` field. -/
def urlSeg (v : JVal) : List String :=
  if pyTruthy v then ["URL:" ++ pyStr v] else []

/-- The text of `name` before its first space. -/
def firstNamePart (name : String) : String :=
  String.mk (name.data.takeWhile (fun c => c ≠ ' '))

/-- The remainder of `name` after its first space, empty when there is
no space. -/
def lastNamePart (name : String) : String :=
  if ' ' ∈ name.data then
    String.mk (name.data.drop ((name.data.takeWhile (fun c => c ≠ ' ')).length + 1))
  else ""

/-- The `name` slot of the submitted record is absent, `null`, or the
empty string. -/
def nameAbsentOrEmpty (data : List (String × JVal)) : Prop :=
  jget data "name" = none ∨ jget data "name" = some JVal.null
    ∨ jget data "name" = some (JVal.str "")

/-- The tag of a contact-card line: its characters before the first
colon. -/
def lineTag (l : String) : List Char := l.data.takeWhile (fun c => c ≠ ':')

/-- A line for the property introduced by `tag` (e.g. `"EMAIL:"`):
the line is `tag` followed by a payload. -/
def IsTagLine (tag l : String) : Prop := ∃ r, l = tag ++ r

/-- The clean-up step as claim C5 words it (this definition follows
the claim's description, for comparison with `process_content`): when
the trimmed text begins with a run of backticks — of any length —
remove all backtick characters, then keep only the text after the last
occurrence of `json` (if any) and trim again. -/
def claimed_process_content (content : String) : String :=
  let c := pyStrip content
  if c.data.head? = some '\x60' then
    pyStrip (String.mk (afterLastSeq jsonTag
      (c.data.filter (fun ch => ch ≠ '\x60'))))
  else c

/-! ### General lemmas -/

/-- Two strings are equal exactly when their character lists are. -/
theorem string_eq_iff_data (s t : String) : s = t ↔ s.data = t.data := by
  constructor
  · intro h; rw [h]
  · intro h; cases s; cases t; exact congrArg String.mk h

/-- `normalize_phone_numbers` keeps, in order, the formats of the
elements that parse and validate. -/
theorem normalize_phone_numbers_eq_filterMap {P : Type}
    (parse : String → String → Option P) (is_valid : P → Bool)
    (format_number : P → String) (numbers : List JVal) (default_region : String) :
    normalize_phone_numbers parse is_valid format_number numbers default_region
      = numbers.filterMap (normalizeOne parse is_valid format_number default_region) := by
  suffices h : ∀ (l : List JVal) (acc : List String),
      l.foldl (fun normalized num => match num with
        | JVal.str s => match parse s default_region with
          | some parsed => if is_valid parsed then normalized ++ [format_number parsed]
            else normalized
          | none => normalized
        | _ => normalized) acc
      = acc ++ l.filterMap (normalizeOne parse is_valid format_number default_region) by
    simpa [normalize_phone_numbers] using h numbers []
  intro l
  induction l with
  | nil => intro acc; simp
  | cons x xs ih =>
    intro acc
    cases x with
    | str s =>
      cases hp : parse s default_region with
      | none => simp [List.foldl_cons, List.filterMap_cons, normalizeOne, hp, ih]
      | some p =>
        cases hv : is_valid p with
        | false => simp [List.foldl_cons, List.filterMap_cons, normalizeOne, hp, hv, ih]
        | true => simp [List.foldl_cons, List.filterMap_cons, normalizeOne, hp, hv, ih]
    | null => simp [List.foldl_cons, List.filterMap_cons, normalizeOne, ih]
    | bool b => simp [List.foldl_cons, List.filterMap_cons, normalizeOne, ih]
    | num n => simp [List.foldl_cons, List.filterMap_cons, normalizeOne, ih]
    | arr elems => simp [List.foldl_cons, List.filterMap_cons, normalizeOne, ih]
    | obj kvs => simp [List.foldl_cons, List.filterMap_cons, normalizeOne, ih]

/-! ### C6 — phone-normalizer contract -/

/-- C6: for every list of input strings and default region, the phone
normalizer returns, without error, the order-preserving sublist of
those inputs that parse and pass the validity check, each rendered by
the library's E.164 formatter; unparseable or invalid entries are
silently dropped, so the output is never longer than the input. -/
theorem c6_normalizer_contract {P : Type} (parse : String → String → Option P)
    (is_valid : P → Bool) (format_number : P → String)
    (default_region : String) (numbers : List String) :
    normalize_phone_numbers parse is_valid format_number
        (numbers.map JVal.str) default_region
      = numbers.filterMap (fun s =>
          match parse s default_region with
          | some p => if is_valid p then some (format_number p) else none
          | none => none)
    ∧ (normalize_phone_numbers parse is_valid format_number
        (numbers.map JVal.str) default_region).length ≤ numbers.length
    ∧ (∀ y ∈ normalize_phone_numbers parse is_valid format_number
          (numbers.map JVal.str) default_region,
        ∃ s ∈ numbers, ∃ p, parse s default_region = some p
          ∧ is_valid p = true ∧ y = format_number p) := by
  have hmain : normalize_phone_numbers parse is_valid format_number
      (numbers.map JVal.str) default_region
      = numbers.filterMap (fun s =>
          match parse s default_region with
          | some p => if is_valid p then some (format_number p) else none
          | none => none) := by
    rw [normalize_phone_numbers_eq_filterMap, List.filterMap_map]
    rfl
  refine ⟨hmain, ?_, ?_⟩
  · rw [hmain]; exact List.length_filterMap_le _ _
  · intro y hy
    rw [hmain] at hy
    rcases List.mem_filterMap.mp hy with ⟨s, hs, hg⟩
    refine ⟨s, hs, ?_⟩
    cases hp : parse s default_region with
    | none => rw [hp] at hg; simp at hg
    | some p =>
      rw [hp] at hg
      simp only [] at hg
      cases hv : is_valid p with
      | false => simp [hv] at hg
      | true => simp [hv] at hg; exact ⟨p, rfl, hv, hg.symm⟩

/-- Witness for C6 at a concrete input: `"not-a-phone"` fails to parse
and is dropped, `"01712345678"` parses and validates and is formatted. -/
theorem c6_witness :
    normalize_phone_numbers (fun s _ => if s = "01712345678" then some () else none)
      (fun _ => true) (fun _ => "+8801712345678")
      ((["not-a-phone", "01712345678"] : List String).map JVal.str) "BD"
      = ["+8801712345678"] := by
  have h := c6_normalizer_contract
    (fun s _ => if s = "01712345678" then some () else none)
    (fun _ => true) (fun _ => "+8801712345678") "BD" ["not-a-phone", "01712345678"]
  exact h.1.trans (by decide)

/-! ### C8 — classifier interpretation -/

/-- C8: both upload handlers treat a classifier response as "is a
card" exactly when, after trimming and lower-casing, it begins with
`yes`; any other response makes the handler answer with the "not a
business card" error body, whatever the extraction call would have
returned. -/
theorem c8_classifier_interpretation (content : String) :
    (is_card_response content = true ↔
      ∃ rest, (pyLower (pyStrip content)).data = 'y' :: 'e' :: 's' :: rest)
    ∧ is_card_response "Yes, clearly a card" = true
    ∧ is_card_response "no" = false
    ∧ is_card_response "maybe" = false
    ∧ (is_card_response content = false →
        ∀ (jsonParse : String → Option JVal) (chat : Except String String),
          do_POST_upload_api (.ok content) jsonParse chat = not_card_error
          ∧ upload_image_backend "image/jpeg" (.ok content) jsonParse chat
              = not_card_error) := by
  refine ⟨?_, by decide, by decide, by decide, ?_⟩
  · unfold is_card_response pyStartsWith
    rw [List.isPrefixOf_iff_prefix]
    constructor
    · rintro ⟨t, ht⟩
      exact ⟨t, ht.symm⟩
    · rintro ⟨rest, hrest⟩
      exact ⟨rest, hrest.symm⟩
  · intro h jsonParse chat
    have himg : pyStartsWith "image/jpeg" "image/" = true := by decide
    constructor
    · simp [do_POST_upload_api, h]
    · simp [upload_image_backend, himg, h]

/-- Witness for C8 at the concrete response `"maybe"`. -/
theorem c8_witness :
    do_POST_upload_api (.ok "maybe") (fun _ => none) (.ok "x") = not_card_error
    ∧ upload_image_backend "image/jpeg" (.ok "maybe") (fun _ => none) (.ok "x")
        = not_card_error :=
  (c8_classifier_interpretation "maybe").2.2.2.2 (by decide) (fun _ => none) (.ok "x")

/-! ### Shape predicates and the serializer decomposition -/

/-- A `None`-or-string `name` slot never raises in the `name` block. -/
theorem vcfNameStep_ok (v : JVal) (h : strOrNull v = true) :
    vcfNameStep v = .ok (nameSeg v) := by
  cases v with
  | null => rfl
  | str s =>
    by_cases hs : s = ""
    · subst hs; rfl
    · simp [vcfNameStep, nameSeg, pyTruthy, hs]
  | bool b => simp [strOrNull] at h
  | num n => simp [strOrNull] at h
  | arr xs => simp [strOrNull] at h
  | obj kvs => simp [strOrNull] at h

/-- Iterating a list value yields its elements. -/
theorem pyIterate_ok (v : JVal) (h : strListVal v = true) :
    pyIterate v = .ok (jarrElems v) := by
  cases v with
  | arr xs => rfl
  | null => simp [strListVal] at h
  | str s => simp [strListVal] at h
  | bool b => simp [strListVal] at h
  | num n => simp [strListVal] at h
  | obj kvs => simp [strListVal] at h

/-- Decomposition of the serializer's line list into its fixed-order
segments.  Only the `name`, `titles` and `phone_numbers` slots can make
the Python function raise, so only their shapes are assumed. -/
theorem create_vcf_lines_eq {P : Type} (parse : String → String → Option P)
    (is_valid : P → Bool) (format_number : P → String)
    (kvs : List (String × JVal))
    (hname : strOrNull (pyGet kvs "name" .null) = true)
    (htitles : strListVal (pyGet kvs "titles" (.arr [])) = true)
    (hphones : strListVal (pyGet kvs "phone_numbers" (.arr [])) = true) :
    create_vcf_lines parse is_valid format_number kvs
      = .ok
        (["BEGIN:VCARD", "VERSION:3.0"]
          ++ nameSeg (pyGet kvs "name" .null)
          ++ titleSeg (pyGet kvs "titles" (.arr []))
          ++ orgSeg (pyGet kvs "organization" .null)
          ++ telSeg parse is_valid format_number (pyGet kvs "phone_numbers" (.arr []))
          ++ emailSeg (pyGet kvs "email" .null)
          ++ adrSeg (pyGet kvs "address" .null)
          ++ urlSeg (pyGet kvs "url" .null)
          ++ ["END:VCARD"]) := by
  unfold create_vcf_lines
  rw [vcfNameStep_ok _ hname, pyIterate_ok _ htitles, pyIterate_ok _ hphones]
  simp only [titleSeg, orgSeg, telSeg, emailSeg, adrSeg, urlSeg]

/-! ### C4 — name splitting -/

/-- The first component of `split(" ", 1)` is the text before the
first space. -/
theorem pySplitOnceSpace_fst (l : List Char) :
    (pySplitOnceSpace l).1 = l.takeWhile (fun c => c ≠ ' ') := by
  induction l with
  | nil => rfl
  | cons c rest ih =>
    by_cases hc : c = ' '
    · subst hc; simp [pySplitOnceSpace, List.takeWhile_cons]
    · simp [pySplitOnceSpace, List.takeWhile_cons, hc, ih]

/-- The second component of `split(" ", 1)` is the remainder after the
first space, or `none` when no space occurs. -/
theorem pySplitOnceSpace_snd (l : List Char) :
    (pySplitOnceSpace l).2
      = if ' ' ∈ l then
          some (l.drop ((l.takeWhile (fun c => c ≠ ' ')).length + 1))
        else none := by
  induction l with
  | nil => rfl
  | cons c rest ih =>
    by_cases hc : c = ' '
    · subst hc; simp [pySplitOnceSpace, List.takeWhile_cons]
    · simp [pySplitOnceSpace, List.takeWhile_cons, hc, ih, List.mem_cons,
        Ne.symm hc]

/-- C4: serializing a record whose only field is `name = "John Doe"`
yields exactly the five expected lines joined by newlines; in general a
present non-empty `name` contributes, right after the two header
lines, an `N:` line built from the split at the first space
(`last` = remainder after the first space, empty when there is none)
followed by an `FN:` line carrying the unsplit name. -/
theorem c4_name_splitting {P : Type} (parse : String → String → Option P)
    (is_valid : P → Bool) (format_number : P → String) :
    create_vcf_content parse is_valid format_number [("name", .str "John Doe")]
      = .ok "BEGIN:VCARD\nVERSION:3.0\nN:Doe;John;;;\nFN:John Doe\nEND:VCARD"
    ∧ ∀ (kvs : List (String × JVal)) (name : String),
        jget kvs "name" = some (.str name) → name ≠ "" →
        strListVal (pyGet kvs "titles" (.arr [])) = true →
        strListVal (pyGet kvs "phone_numbers" (.arr [])) = true →
        ∃ tail, create_vcf_lines parse is_valid format_number kvs
          = .ok ("BEGIN:VCARD" :: "VERSION:3.0"
              :: ("N:" ++ lastNamePart name ++ ";" ++ firstNamePart name ++ ";;;")
              :: ("FN:" ++ name) :: tail) := by
  constructor
  · have h := create_vcf_lines_eq parse is_valid format_number
      [("name", .str "John Doe")] (by decide) (by decide) (by decide)
    unfold create_vcf_content
    rw [h]
    rfl
  · intro kvs name hget hne htitles hphones
    have hname : strOrNull (pyGet kvs "name" .null) = true := by
      simp [pyGet, hget, strOrNull]
    have h := create_vcf_lines_eq parse is_valid format_number kvs hname htitles hphones
    refine ⟨titleSeg (pyGet kvs "titles" (.arr []))
      ++ orgSeg (pyGet kvs "organization" .null)
      ++ telSeg parse is_valid format_number (pyGet kvs "phone_numbers" (.arr []))
      ++ emailSeg (pyGet kvs "email" .null)
      ++ adrSeg (pyGet kvs "address" .null)
      ++ urlSeg (pyGet kvs "url" .null)
      ++ ["END:VCARD"], ?_⟩
    rw [h]
    have hv : pyGet kvs "name" .null = .str name := by simp [pyGet, hget]
    rw [hv]
    have hseg : nameSeg (.str name)
        = ["N:" ++ lastNamePart name ++ ";" ++ firstNamePart name ++ ";;;",
           "FN:" ++ name] := by
      simp only [nameSeg]
      rw [if_neg hne]
      have h1 : String.mk (pySplitOnceSpace name.data).1 = firstNamePart name := by
        rw [pySplitOnceSpace_fst]; rfl
      have h2 : (match (pySplitOnceSpace name.data).2 with
          | some r => String.mk r
          | none => "") = lastNamePart name := by
        rw [pySplitOnceSpace_snd]
        unfold lastNamePart
        by_cases hsp : ' ' ∈ name.data
        · rw [if_pos hsp, if_pos hsp]
        · rw [if_neg hsp, if_neg hsp]
      rw [h1, h2]
    rw [hseg]
    simp

/-- Witness for C4 at the record `{"name": "Jane Roe"}`. -/
theorem c4_witness :
    ∃ tail, create_vcf_lines (fun (_ _ : String) => (none : Option Unit))
        (fun _ => true) (fun _ => "") [("name", .str "Jane Roe")]
      = .ok ("BEGIN:VCARD" :: "VERSION:3.0"
          :: ("N:" ++ lastNamePart "Jane Roe" ++ ";" ++ firstNamePart "Jane Roe" ++ ";;;")
          :: ("FN:" ++ "Jane Roe") :: tail) :=
  (c4_name_splitting (fun (_ _ : String) => (none : Option Unit)) (fun _ => true)
      (fun _ => "")).2
    [("name", .str "Jane Roe")] "Jane Roe" rfl (by decide) (by decide) (by decide)

/-! ### C10 — serializer safety precondition -/

/-- The three field shapes that rule out every exception the serializer
can raise. -/
theorem wellShaped_fields (kvs : List (String × JVal))
    (h : wellShapedContact kvs = true) :
    strOrNull (pyGet kvs "name" .null) = true
    ∧ strListVal (pyGet kvs "titles" (.arr [])) = true
    ∧ strListVal (pyGet kvs "phone_numbers" (.arr [])) = true := by
  simp only [wellShapedContact, Bool.and_eq_true] at h
  tauto

/-- On a well-shaped dict the serializer returns a string. -/
theorem create_vcf_content_ok {P : Type} (parse : String → String → Option P)
    (is_valid : P → Bool) (format_number : P → String)
    (kvs : List (String × JVal)) (h : wellShapedContact kvs = true) :
    ∃ vcf, create_vcf_content parse is_valid format_number kvs = .ok vcf := by
  obtain ⟨h1, h2, h3⟩ := wellShaped_fields kvs h
  cases hc : create_vcf_lines parse is_valid format_number kvs with
  | error e =>
    rw [create_vcf_lines_eq parse is_valid format_number kvs h1 h2 h3] at hc
    exact absurd hc (by simp)
  | ok ls =>
    exact ⟨String.intercalate "\n" ls, by unfold create_vcf_content; rw [hc]⟩

/-- C10 counterexample: the record `{"titles": null}` satisfies the
claim's literal precondition — every field, when present and non-null,
has its declared shape — yet the serializer raises (`for title in
None` is a `TypeError`) instead of returning a string. -/
theorem c10_counterexample :
    c10StatedShape [("titles", JVal.null)] = true
    ∧ (create_vcf_content (fun (_ _ : String) => (none : Option Unit))
        (fun _ => true) (fun _ => "") [("titles", JVal.null)]).isOk = false :=
  ⟨by decide, by decide⟩

/-- C10 as amended: when additionally `titles` and `phone_numbers` are
non-null (absent or lists of strings), the serializer terminates and
returns a string without raising. -/
theorem c10_amended_safety {P : Type} (parse : String → String → Option P)
    (is_valid : P → Bool) (format_number : P → String)
    (kvs : List (String × JVal)) (h : wellShapedContact kvs = true) :
    (create_vcf_content parse is_valid format_number kvs).isOk = true := by
  obtain ⟨vcf, hv⟩ := create_vcf_content_ok parse is_valid format_number kvs h
  rw [hv]
  rfl

/-- Witness for C10 (amended) on a concrete well-shaped record. -/
theorem c10_witness :
    (create_vcf_content (fun (_ _ : String) => (none : Option Unit))
      (fun _ => true) (fun _ => "")
      [("name", .str "Jane Roe"), ("titles", .arr [.str "CEO"])]).isOk = true :=
  c10_amended_safety (fun (_ _ : String) => (none : Option Unit)) (fun _ => true)
    (fun _ => "") [("name", .str "Jane Roe"), ("titles", .arr [.str "CEO"])]
    (by decide)

/-! ### C7 — the generate-vcf endpoint -/

/-- C7: on a well-shaped record, the endpoint answers 400 with the
fixed error body exactly when `name` is absent/null/empty, and
otherwise answers 200 with the serialized card and a
`Content-Disposition` filename obtained from `name` by replacing
spaces and slashes with underscores. -/
theorem c7_generate_vcf_contract {P : Type} (parse : String → String → Option P)
    (is_valid : P → Bool) (format_number : P → String)
    (data : List (String × JVal)) (hw : wellShapedContact data = true) :
    ((generate_vcf parse is_valid format_number data).status = 400
      ↔ nameAbsentOrEmpty data)
    ∧ (nameAbsentOrEmpty data →
        generate_vcf parse is_valid format_number data
          = ⟨400, "application/json", none,
              "\x7b\"error\": \"Name is required to generate vCard\"\x7d"⟩)
    ∧ (∀ s, jget data "name" = some (.str s) → s ≠ "" →
        ∃ vcf, create_vcf_content parse is_valid format_number data = .ok vcf
          ∧ generate_vcf parse is_valid format_number data
            = ⟨200, "text/vcard",
                some ("attachment; filename="
                  ++ ((s.replace " " "_").replace "/" "_") ++ ".vcf"), vcf⟩) := by
  obtain ⟨vcf, hvcf⟩ := create_vcf_content_ok parse is_valid format_number data hw
  have hfalsy : nameAbsentOrEmpty data → pyTruthy (pyGet data "name" .null) = false := by
    rintro (h | h | h) <;> simp [pyGet, h, pyTruthy]
  have h400 : nameAbsentOrEmpty data →
      generate_vcf parse is_valid format_number data
        = ⟨400, "application/json", none,
            "\x7b\"error\": \"Name is required to generate vCard\"\x7d"⟩ := by
    intro h
    unfold generate_vcf
    rw [hfalsy h]
    rfl
  have h200 : ∀ s, jget data "name" = some (.str s) → s ≠ "" →
      generate_vcf parse is_valid format_number data
        = ⟨200, "text/vcard",
            some ("attachment; filename="
              ++ ((s.replace " " "_").replace "/" "_") ++ ".vcf"), vcf⟩ := by
    intro s hs hne
    have htr : pyTruthy (pyGet data "name" .null) = true := by
      simp [pyGet, hs, pyTruthy, hne]
    have hget2 : pyGet data "name" (.str "contact") = .str s := by
      simp [pyGet, hs]
    unfold generate_vcf
    rw [htr, hvcf, hget2]
    rfl
  refine ⟨?_, h400, fun s hs hne => ⟨vcf, hvcf, h200 s hs hne⟩⟩
  constructor
  · intro hst
    by_contra hn
    cases hv : jget data "name" with
    | none => exact hn (Or.inl hv)
    | some v =>
      have hshape : strOrNull (pyGet data "name" .null) = true := by
        simp only [wellShapedContact, Bool.and_eq_true] at hw
        tauto
      rw [show pyGet data "name" JVal.null = v by simp [pyGet, hv]] at hshape
      cases v with
      | null => exact hn (Or.inr (Or.inl hv))
      | str s =>
        by_cases hse : s = ""
        · subst hse; exact hn (Or.inr (Or.inr hv))
        · rw [h200 s hv hse] at hst
          simp at hst
      | bool b => simp [strOrNull] at hshape
      | num n => simp [strOrNull] at hshape
      | arr xs => simp [strOrNull] at hshape
      | obj o => simp [strOrNull] at hshape
  · intro h
    rw [h400 h]

/-- Witness for C7: the spec's end-to-end example record
`{"name": "Jane Roe", "phone_numbers": ["01812345678"]}`. -/
theorem c7_witness :
    ∃ vcf, create_vcf_content
        (fun n (_ : String) => if n = "01812345678" then some () else none)
        (fun _ => true) (fun _ => "+8801812345678")
        [("name", .str "Jane Roe"), ("phone_numbers", .arr [.str "01812345678"])]
        = .ok vcf
      ∧ generate_vcf
          (fun n (_ : String) => if n = "01812345678" then some () else none)
          (fun _ => true) (fun _ => "+8801812345678")
          [("name", .str "Jane Roe"), ("phone_numbers", .arr [.str "01812345678"])]
        = ⟨200, "text/vcard",
            some ("attachment; filename="
              ++ (("Jane Roe".replace " " "_").replace "/" "_") ++ ".vcf"), vcf⟩ :=
  (c7_generate_vcf_contract
      (fun n (_ : String) => if n = "01812345678" then some () else none)
      (fun _ => true) (fun _ => "+8801812345678")
      [("name", .str "Jane Roe"), ("phone_numbers", .arr [.str "01812345678"])]
      (by decide)).2.2 "Jane Roe" rfl (by decide)

/-! ### C3 — line order and absent fields -/

/-- Lines contributed by the `name` field are tagged `N` or `FN`. -/
theorem tag_of_mem_nameSeg (v : JVal) (l : String) (h : l ∈ nameSeg v) :
    lineTag l = "N".data ∨ lineTag l = "FN".data := by
  cases v with
  | str s =>
    simp only [nameSeg] at h
    by_cases hs : s = ""
    · rw [if_pos hs] at h; simp at h
    · rw [if_neg hs] at h
      simp only [List.mem_cons, List.not_mem_nil, or_false] at h
      rcases h with h | h
      · left; rw [h]; rfl
      · right; rw [h]; rfl
  | null => simp [nameSeg] at h
  | bool b => simp [nameSeg] at h
  | num n => simp [nameSeg] at h
  | arr xs => simp [nameSeg] at h
  | obj o => simp [nameSeg] at h

/-- Lines contributed by the `titles` field are tagged `TITLE`. -/
theorem tag_of_mem_titleSeg (v : JVal) (l : String) (h : l ∈ titleSeg v) :
    lineTag l = "TITLE".data := by
  unfold titleSeg at h
  rcases List.mem_map.mp h with ⟨t, _, ht⟩
  rw [← ht]; rfl

/-- The line contributed by the `organization` field is tagged `ORG`. -/
theorem tag_of_mem_orgSeg (v : JVal) (l : String) (h : l ∈ orgSeg v) :
    lineTag l = "ORG".data := by
  unfold orgSeg at h
  by_cases hv : pyTruthy v = true
  · rw [if_pos hv] at h
    simp only [List.mem_singleton] at h
    rw [h]; rfl
  · rw [if_neg hv] at h; simp at h

/-- Lines contributed by the `phone_numbers` field are tagged
`TEL;TYPE=CELL`. -/
theorem tag_of_mem_telSeg {P : Type} (parse : String → String → Option P)
    (is_valid : P → Bool) (format_number : P → String) (v : JVal) (l : String)
    (h : l ∈ telSeg parse is_valid format_number v) :
    lineTag l = "TEL;TYPE=CELL".data := by
  unfold telSeg at h
  rcases List.mem_map.mp h with ⟨p, _, hp⟩
  rw [← hp]; rfl

/-- The line contributed by the `email` field is tagged `EMAIL`. -/
theorem tag_of_mem_emailSeg (v : JVal) (l : String) (h : l ∈ emailSeg v) :
    lineTag l = "EMAIL".data := by
  unfold emailSeg at h
  by_cases hv : pyTruthy v = true
  · rw [if_pos hv] at h
    simp only [List.mem_singleton] at h
    rw [h]; rfl
  · rw [if_neg hv] at h; simp at h

/-- The line contributed by the `address` field is tagged `ADR`. -/
theorem tag_of_mem_adrSeg (v : JVal) (l : String) (h : l ∈ adrSeg v) :
    lineTag l = "ADR".data := by
  unfold adrSeg at h
  by_cases hv : pyTruthy v = true
  · rw [if_pos hv] at h
    simp only [List.mem_singleton] at h
    rw [h]; rfl
  · rw [if_neg hv] at h; simp at h

/-- The line contributed by the `url` field is tagged `URL`. -/
theorem tag_of_mem_urlSeg (v : JVal) (l : String) (h : l ∈ urlSeg v) :
    lineTag l = "URL".data := by
  unfold urlSeg at h
  by_cases hv : pyTruthy v = true
  · rw [if_pos hv] at h
    simp only [List.mem_singleton] at h
    rw [h]; rfl
  · rw [if_neg hv] at h; simp at h

/-- Every line of the serializer's output is a header/footer line or
belongs to exactly one field segment, with the tag of that segment. -/
theorem lineTag_mem_lines {P : Type} (parse : String → String → Option P)
    (is_valid : P → Bool) (format_number : P → String)
    (nv tv ov pv ev av uv : JVal) (l : String)
    (hl : l ∈ ["BEGIN:VCARD", "VERSION:3.0"] ++ nameSeg nv ++ titleSeg tv
        ++ orgSeg ov ++ telSeg parse is_valid format_number pv ++ emailSeg ev
        ++ adrSeg av ++ urlSeg uv ++ ["END:VCARD"]) :
    l = "BEGIN:VCARD" ∨ l = "VERSION:3.0" ∨ l = "END:VCARD"
    ∨ (l ∈ nameSeg nv ∧ (lineTag l = "N".data ∨ lineTag l = "FN".data))
    ∨ (l ∈ titleSeg tv ∧ lineTag l = "TITLE".data)
    ∨ (l ∈ orgSeg ov ∧ lineTag l = "ORG".data)
    ∨ (l ∈ telSeg parse is_valid format_number pv ∧ lineTag l = "TEL;TYPE=CELL".data)
    ∨ (l ∈ emailSeg ev ∧ lineTag l = "EMAIL".data)
    ∨ (l ∈ adrSeg av ∧ lineTag l = "ADR".data)
    ∨ (l ∈ urlSeg uv ∧ lineTag l = "URL".data) := by
  simp only [List.mem_append, List.mem_cons, List.not_mem_nil, or_false] at hl
  rcases hl with (((((((((h | h) | h) | h) | h) | h) | h) | h) | h) | h)
  · exact Or.inl h
  · exact Or.inr (Or.inl h)
  · exact Or.inr (Or.inr (Or.inr (Or.inl ⟨h, tag_of_mem_nameSeg nv l h⟩)))
  · exact Or.inr (Or.inr (Or.inr (Or.inr (Or.inl ⟨h, tag_of_mem_titleSeg tv l h⟩))))
  · exact Or.inr (Or.inr (Or.inr (Or.inr (Or.inr (Or.inl ⟨h, tag_of_mem_orgSeg ov l h⟩)))))
  · exact Or.inr (Or.inr (Or.inr (Or.inr (Or.inr (Or.inr (Or.inl
      ⟨h, tag_of_mem_telSeg parse is_valid format_number pv l h⟩))))))
  · exact Or.inr (Or.inr (Or.inr (Or.inr (Or.inr (Or.inr (Or.inr (Or.inl
      ⟨h, tag_of_mem_emailSeg ev l h⟩)))))))
  · exact Or.inr (Or.inr (Or.inr (Or.inr (Or.inr (Or.inr (Or.inr (Or.inr (Or.inl
      ⟨h, tag_of_mem_adrSeg av l h⟩))))))))
  · exact Or.inr (Or.inr (Or.inr (Or.inr (Or.inr (Or.inr (Or.inr (Or.inr (Or.inr
      ⟨h, tag_of_mem_urlSeg uv l h⟩))))))))
  · exact Or.inr (Or.inr (Or.inl h))

/-- A `N:`-prefixed line among the serializer's output lines can
only come from the corresponding field segment. -/
theorem tagline_mem_nameSeg_n {P : Type} (parse : String → String → Option P)
    (is_valid : P → Bool) (format_number : P → String)
    (nv tv ov pv ev av uv : JVal) (l : String)
    (hl : l ∈ ["BEGIN:VCARD", "VERSION:3.0"] ++ nameSeg nv ++ titleSeg tv
        ++ orgSeg ov ++ telSeg parse is_valid format_number pv ++ emailSeg ev
        ++ adrSeg av ++ urlSeg uv ++ ["END:VCARD"])
    (htag : IsTagLine "N:" l) : l ∈ nameSeg nv := by
  obtain ⟨r, rfl⟩ := htag
  rcases lineTag_mem_lines parse is_valid format_number nv tv ov pv ev av uv _ hl with
    h | h | h | ⟨hm, htg | htg⟩ | ⟨hm, htg⟩ | ⟨hm, htg⟩ | ⟨hm, htg⟩ | ⟨hm, htg⟩ | ⟨hm, htg⟩ | ⟨hm, htg⟩
  · exact absurd (show ("N".data : List Char) = "BEGIN".data from congrArg lineTag h) (by decide)
  · exact absurd (show ("N".data : List Char) = "VERSION".data from congrArg lineTag h) (by decide)
  · exact absurd (show ("N".data : List Char) = "END".data from congrArg lineTag h) (by decide)
  · exact hm
  · exact hm
  · exact absurd (show ("N".data : List Char) = "TITLE".data from htg) (by decide)
  · exact absurd (show ("N".data : List Char) = "ORG".data from htg) (by decide)
  · exact absurd (show ("N".data : List Char) = "TEL;TYPE=CELL".data from htg) (by decide)
  · exact absurd (show ("N".data : List Char) = "EMAIL".data from htg) (by decide)
  · exact absurd (show ("N".data : List Char) = "ADR".data from htg) (by decide)
  · exact absurd (show ("N".data : List Char) = "URL".data from htg) (by decide)

/-- A `FN:`-prefixed line among the serializer's output lines can
only come from the corresponding field segment. -/
theorem tagline_mem_nameSeg_fn {P : Type} (parse : String → String → Option P)
    (is_valid : P → Bool) (format_number : P → String)
    (nv tv ov pv ev av uv : JVal) (l : String)
    (hl : l ∈ ["BEGIN:VCARD", "VERSION:3.0"] ++ nameSeg nv ++ titleSeg tv
        ++ orgSeg ov ++ telSeg parse is_valid format_number pv ++ emailSeg ev
        ++ adrSeg av ++ urlSeg uv ++ ["END:VCARD"])
    (htag : IsTagLine "FN:" l) : l ∈ nameSeg nv := by
  obtain ⟨r, rfl⟩ := htag
  rcases lineTag_mem_lines parse is_valid format_number nv tv ov pv ev av uv _ hl with
    h | h | h | ⟨hm, htg | htg⟩ | ⟨hm, htg⟩ | ⟨hm, htg⟩ | ⟨hm, htg⟩ | ⟨hm, htg⟩ | ⟨hm, htg⟩ | ⟨hm, htg⟩
  · exact absurd (show ("FN".data : List Char) = "BEGIN".data from congrArg lineTag h) (by decide)
  · exact absurd (show ("FN".data : List Char) = "VERSION".data from congrArg lineTag h) (by decide)
  · exact absurd (show ("FN".data : List Char) = "END".data from congrArg lineTag h) (by decide)
  · exact hm
  · exact hm
  · exact absurd (show ("FN".data : List Char) = "TITLE".data from htg) (by decide)
  · exact absurd (show ("FN".data : List Char) = "ORG".data from htg) (by decide)
  · exact absurd (show ("FN".data : List Char) = "TEL;TYPE=CELL".data from htg) (by decide)
  · exact absurd (show ("FN".data : List Char) = "EMAIL".data from htg) (by decide)
  · exact absurd (show ("FN".data : List Char) = "ADR".data from htg) (by decide)
  · exact absurd (show ("FN".data : List Char) = "URL".data from htg) (by decide)

/-- A `TITLE:`-prefixed line among the serializer's output lines can
only come from the corresponding field segment. -/
theorem tagline_mem_titleSeg {P : Type} (parse : String → String → Option P)
    (is_valid : P → Bool) (format_number : P → String)
    (nv tv ov pv ev av uv : JVal) (l : String)
    (hl : l ∈ ["BEGIN:VCARD", "VERSION:3.0"] ++ nameSeg nv ++ titleSeg tv
        ++ orgSeg ov ++ telSeg parse is_valid format_number pv ++ emailSeg ev
        ++ adrSeg av ++ urlSeg uv ++ ["END:VCARD"])
    (htag : IsTagLine "TITLE:" l) : l ∈ titleSeg tv := by
  obtain ⟨r, rfl⟩ := htag
  rcases lineTag_mem_lines parse is_valid format_number nv tv ov pv ev av uv _ hl with
    h | h | h | ⟨hm, htg | htg⟩ | ⟨hm, htg⟩ | ⟨hm, htg⟩ | ⟨hm, htg⟩ | ⟨hm, htg⟩ | ⟨hm, htg⟩ | ⟨hm, htg⟩
  · exact absurd (show ("TITLE".data : List Char) = "BEGIN".data from congrArg lineTag h) (by decide)
  · exact absurd (show ("TITLE".data : List Char) = "VERSION".data from congrArg lineTag h) (by decide)
  · exact absurd (show ("TITLE".data : List Char) = "END".data from congrArg lineTag h) (by decide)
  · exact absurd (show ("TITLE".data : List Char) = "N".data from htg) (by decide)
  · exact absurd (show ("TITLE".data : List Char) = "FN".data from htg) (by decide)
  · exact hm
  · exact absurd (show ("TITLE".data : List Char) = "ORG".data from htg) (by decide)
  · exact absurd (show ("TITLE".data : List Char) = "TEL;TYPE=CELL".data from htg) (by decide)
  · exact absurd (show ("TITLE".data : List Char) = "EMAIL".data from htg) (by decide)
  · exact absurd (show ("TITLE".data : List Char) = "ADR".data from htg) (by decide)
  · exact absurd (show ("TITLE".data : List Char) = "URL".data from htg) (by decide)

/-- A `ORG:`-prefixed line among the serializer's output lines can
only come from the corresponding field segment. -/
theorem tagline_mem_orgSeg {P : Type} (parse : String → String → Option P)
    (is_valid : P → Bool) (format_number : P → String)
    (nv tv ov pv ev av uv : JVal) (l : String)
    (hl : l ∈ ["BEGIN:VCARD", "VERSION:3.0"] ++ nameSeg nv ++ titleSeg tv
        ++ orgSeg ov ++ telSeg parse is_valid format_number pv ++ emailSeg ev
        ++ adrSeg av ++ urlSeg uv ++ ["END:VCARD"])
    (htag : IsTagLine "ORG:" l) : l ∈ orgSeg ov := by
  obtain ⟨r, rfl⟩ := htag
  rcases lineTag_mem_lines parse is_valid format_number nv tv ov pv ev av uv _ hl with
    h | h | h | ⟨hm, htg | htg⟩ | ⟨hm, htg⟩ | ⟨hm, htg⟩ | ⟨hm, htg⟩ | ⟨hm, htg⟩ | ⟨hm, htg⟩ | ⟨hm, htg⟩
  · exact absurd (show ("ORG".data : List Char) = "BEGIN".data from congrArg lineTag h) (by decide)
  · exact absurd (show ("ORG".data : List Char) = "VERSION".data from congrArg lineTag h) (by decide)
  · exact absurd (show ("ORG".data : List Char) = "END".data from congrArg lineTag h) (by decide)
  · exact absurd (show ("ORG".data : List Char) = "N".data from htg) (by decide)
  · exact absurd (show ("ORG".data : List Char) = "FN".data from htg) (by decide)
  · exact absurd (show ("ORG".data : List Char) = "TITLE".data from htg) (by decide)
  · exact hm
  · exact absurd (show ("ORG".data : List Char) = "TEL;TYPE=CELL".data from htg) (by decide)
  · exact absurd (show ("ORG".data : List Char) = "EMAIL".data from htg) (by decide)
  · exact absurd (show ("ORG".data : List Char) = "ADR".data from htg) (by decide)
  · exact absurd (show ("ORG".data : List Char) = "URL".data from htg) (by decide)

/-- A `TEL;TYPE=CELL:`-prefixed line among the serializer's output lines can
only come from the corresponding field segment. -/
theorem tagline_mem_telSeg {P : Type} (parse : String → String → Option P)
    (is_valid : P → Bool) (format_number : P → String)
    (nv tv ov pv ev av uv : JVal) (l : String)
    (hl : l ∈ ["BEGIN:VCARD", "VERSION:3.0"] ++ nameSeg nv ++ titleSeg tv
        ++ orgSeg ov ++ telSeg parse is_valid format_number pv ++ emailSeg ev
        ++ adrSeg av ++ urlSeg uv ++ ["END:VCARD"])
    (htag : IsTagLine "TEL;TYPE=CELL:" l) : l ∈ telSeg parse is_valid format_number pv := by
  obtain ⟨r, rfl⟩ := htag
  rcases lineTag_mem_lines parse is_valid format_number nv tv ov pv ev av uv _ hl with
    h | h | h | ⟨hm, htg | htg⟩ | ⟨hm, htg⟩ | ⟨hm, htg⟩ | ⟨hm, htg⟩ | ⟨hm, htg⟩ | ⟨hm, htg⟩ | ⟨hm, htg⟩
  · exact absurd (show ("TEL;TYPE=CELL".data : List Char) = "BEGIN".data from congrArg lineTag h) (by decide)
  · exact absurd (show ("TEL;TYPE=CELL".data : List Char) = "VERSION".data from congrArg lineTag h) (by decide)
  · exact absurd (show ("TEL;TYPE=CELL".data : List Char) = "END".data from congrArg lineTag h) (by decide)
  · exact absurd (show ("TEL;TYPE=CELL".data : List Char) = "N".data from htg) (by decide)
  · exact absurd (show ("TEL;TYPE=CELL".data : List Char) = "FN".data from htg) (by decide)
  · exact absurd (show ("TEL;TYPE=CELL".data : List Char) = "TITLE".data from htg) (by decide)
  · exact absurd (show ("TEL;TYPE=CELL".data : List Char) = "ORG".data from htg) (by decide)
  · exact hm
  · exact absurd (show ("TEL;TYPE=CELL".data : List Char) = "EMAIL".data from htg) (by decide)
  · exact absurd (show ("TEL;TYPE=CELL".data : List Char) = "ADR".data from htg) (by decide)
  · exact absurd (show ("TEL;TYPE=CELL".data : List Char) = "URL".data from htg) (by decide)

/-- A `EMAIL:`-prefixed line among the serializer's output lines can
only come from the corresponding field segment. -/
theorem tagline_mem_emailSeg {P : Type} (parse : String → String → Option P)
    (is_valid : P → Bool) (format_number : P → String)
    (nv tv ov pv ev av uv : JVal) (l : String)
    (hl : l ∈ ["BEGIN:VCARD", "VERSION:3.0"] ++ nameSeg nv ++ titleSeg tv
        ++ orgSeg ov ++ telSeg parse is_valid format_number pv ++ emailSeg ev
        ++ adrSeg av ++ urlSeg uv ++ ["END:VCARD"])
    (htag : IsTagLine "EMAIL:" l) : l ∈ emailSeg ev := by
  obtain ⟨r, rfl⟩ := htag
  rcases lineTag_mem_lines parse is_valid format_number nv tv ov pv ev av uv _ hl with
    h | h | h | ⟨hm, htg | htg⟩ | ⟨hm, htg⟩ | ⟨hm, htg⟩ | ⟨hm, htg⟩ | ⟨hm, htg⟩ | ⟨hm, htg⟩ | ⟨hm, htg⟩
  · exact absurd (show ("EMAIL".data : List Char) = "BEGIN".data from congrArg lineTag h) (by decide)
  · exact absurd (show ("EMAIL".data : List Char) = "VERSION".data from congrArg lineTag h) (by decide)
  · exact absurd (show ("EMAIL".data : List Char) = "END".data from congrArg lineTag h) (by decide)
  · exact absurd (show ("EMAIL".data : List Char) = "N".data from htg) (by decide)
  · exact absurd (show ("EMAIL".data : List Char) = "FN".data from htg) (by decide)
  · exact absurd (show ("EMAIL".data : List Char) = "TITLE".data from htg) (by decide)
  · exact absurd (show ("EMAIL".data : List Char) = "ORG".data from htg) (by decide)
  · exact absurd (show ("EMAIL".data : List Char) = "TEL;TYPE=CELL".data from htg) (by decide)
  · exact hm
  · exact absurd (show ("EMAIL".data : List Char) = "ADR".data from htg) (by decide)
  · exact absurd (show ("EMAIL".data : List Char) = "URL".data from htg) (by decide)

/-- A `ADR:`-prefixed line among the serializer's output lines can
only come from the corresponding field segment. -/
theorem tagline_mem_adrSeg {P : Type} (parse : String → String → Option P)
    (is_valid : P → Bool) (format_number : P → String)
    (nv tv ov pv ev av uv : JVal) (l : String)
    (hl : l ∈ ["BEGIN:VCARD", "VERSION:3.0"] ++ nameSeg nv ++ titleSeg tv
        ++ orgSeg ov ++ telSeg parse is_valid format_number pv ++ emailSeg ev
        ++ adrSeg av ++ urlSeg uv ++ ["END:VCARD"])
    (htag : IsTagLine "ADR:" l) : l ∈ adrSeg av := by
  obtain ⟨r, rfl⟩ := htag
  rcases lineTag_mem_lines parse is_valid format_number nv tv ov pv ev av uv _ hl with
    h | h | h | ⟨hm, htg | htg⟩ | ⟨hm, htg⟩ | ⟨hm, htg⟩ | ⟨hm, htg⟩ | ⟨hm, htg⟩ | ⟨hm, htg⟩ | ⟨hm, htg⟩
  · exact absurd (show ("ADR".data : List Char) = "BEGIN".data from congrArg lineTag h) (by decide)
  · exact absurd (show ("ADR".data : List Char) = "VERSION".data from congrArg lineTag h) (by decide)
  · exact absurd (show ("ADR".data : List Char) = "END".data from congrArg lineTag h) (by decide)
  · exact absurd (show ("ADR".data : List Char) = "N".data from htg) (by decide)
  · exact absurd (show ("ADR".data : List Char) = "FN".data from htg) (by decide)
  · exact absurd (show ("ADR".data : List Char) = "TITLE".data from htg) (by decide)
  · exact absurd (show ("ADR".data : List Char) = "ORG".data from htg) (by decide)
  · exact absurd (show ("ADR".data : List Char) = "TEL;TYPE=CELL".data from htg) (by decide)
  · exact absurd (show ("ADR".data : List Char) = "EMAIL".data from htg) (by decide)
  · exact hm
  · exact absurd (show ("ADR".data : List Char) = "URL".data from htg) (by decide)

/-- A `URL:`-prefixed line among the serializer's output lines can
only come from the corresponding field segment. -/
theorem tagline_mem_urlSeg {P : Type} (parse : String → String → Option P)
    (is_valid : P → Bool) (format_number : P → String)
    (nv tv ov pv ev av uv : JVal) (l : String)
    (hl : l ∈ ["BEGIN:VCARD", "VERSION:3.0"] ++ nameSeg nv ++ titleSeg tv
        ++ orgSeg ov ++ telSeg parse is_valid format_number pv ++ emailSeg ev
        ++ adrSeg av ++ urlSeg uv ++ ["END:VCARD"])
    (htag : IsTagLine "URL:" l) : l ∈ urlSeg uv := by
  obtain ⟨r, rfl⟩ := htag
  rcases lineTag_mem_lines parse is_valid format_number nv tv ov pv ev av uv _ hl with
    h | h | h | ⟨hm, htg | htg⟩ | ⟨hm, htg⟩ | ⟨hm, htg⟩ | ⟨hm, htg⟩ | ⟨hm, htg⟩ | ⟨hm, htg⟩ | ⟨hm, htg⟩
  · exact absurd (show ("URL".data : List Char) = "BEGIN".data from congrArg lineTag h) (by decide)
  · exact absurd (show ("URL".data : List Char) = "VERSION".data from congrArg lineTag h) (by decide)
  · exact absurd (show ("URL".data : List Char) = "END".data from congrArg lineTag h) (by decide)
  · exact absurd (show ("URL".data : List Char) = "N".data from htg) (by decide)
  · exact absurd (show ("URL".data : List Char) = "FN".data from htg) (by decide)
  · exact absurd (show ("URL".data : List Char) = "TITLE".data from htg) (by decide)
  · exact absurd (show ("URL".data : List Char) = "ORG".data from htg) (by decide)
  · exact absurd (show ("URL".data : List Char) = "TEL;TYPE=CELL".data from htg) (by decide)
  · exact absurd (show ("URL".data : List Char) = "EMAIL".data from htg) (by decide)
  · exact absurd (show ("URL".data : List Char) = "ADR".data from htg) (by decide)
  · exact hm

/-- C3: on a well-shaped record the serializer succeeds, its lines are
exactly the fixed-order concatenation header, N/FN, titles, ORG, TELs,
EMAIL, ADR, URL, footer; the output is a function of the dict's lookup
table only (so the order in which fields appear in the record is
irrelevant); and an absent optional field contributes no line with its
tag anywhere in the output. -/
theorem c3_fixed_order_and_absence {P : Type} (parse : String → String → Option P)
    (is_valid : P → Bool) (format_number : P → String)
    (kvs : List (String × JVal)) (hw : wellShapedContact kvs = true) :
    ∃ ls, create_vcf_lines parse is_valid format_number kvs = .ok ls
      ∧ ls = ["BEGIN:VCARD", "VERSION:3.0"]
          ++ nameSeg (pyGet kvs "name" .null)
          ++ titleSeg (pyGet kvs "titles" (.arr []))
          ++ orgSeg (pyGet kvs "organization" .null)
          ++ telSeg parse is_valid format_number (pyGet kvs "phone_numbers" (.arr []))
          ++ emailSeg (pyGet kvs "email" .null)
          ++ adrSeg (pyGet kvs "address" .null)
          ++ urlSeg (pyGet kvs "url" .null)
          ++ ["END:VCARD"]
      ∧ (∀ kvs', (∀ k, jget kvs' k = jget kvs k) →
          create_vcf_lines parse is_valid format_number kvs'
            = create_vcf_lines parse is_valid format_number kvs)
      ∧ (jget kvs "name" = none →
          ∀ l ∈ ls, ¬ IsTagLine "N:" l ∧ ¬ IsTagLine "FN:" l)
      ∧ (jget kvs "titles" = none → ∀ l ∈ ls, ¬ IsTagLine "TITLE:" l)
      ∧ (jget kvs "organization" = none → ∀ l ∈ ls, ¬ IsTagLine "ORG:" l)
      ∧ (normalize_phone_numbers parse is_valid format_number
            (jarrElems (pyGet kvs "phone_numbers" (.arr []))) "BD" = [] →
          ∀ l ∈ ls, ¬ IsTagLine "TEL;TYPE=CELL:" l)
      ∧ (jget kvs "email" = none → ∀ l ∈ ls, ¬ IsTagLine "EMAIL:" l)
      ∧ (jget kvs "address" = none → ∀ l ∈ ls, ¬ IsTagLine "ADR:" l)
      ∧ (jget kvs "url" = none → ∀ l ∈ ls, ¬ IsTagLine "URL:" l) := by
  obtain ⟨h1, h2, h3⟩ := wellShaped_fields kvs hw
  have hls := create_vcf_lines_eq parse is_valid format_number kvs h1 h2 h3
  refine ⟨_, hls, rfl, ?_, ?_, ?_, ?_, ?_, ?_, ?_, ?_⟩
  · intro kvs' hk
    simp only [create_vcf_lines, pyGet]
    rw [hk "name", hk "titles", hk "organization", hk "phone_numbers",
      hk "email", hk "address", hk "url"]
  · intro habs l hl
    have hnull : pyGet kvs "name" JVal.null = JVal.null := by simp [pyGet, habs]
    constructor
    · intro htag
      have hm := tagline_mem_nameSeg_n parse is_valid format_number _ _ _ _ _ _ _ l hl htag
      rw [hnull] at hm
      simp [nameSeg] at hm
    · intro htag
      have hm := tagline_mem_nameSeg_fn parse is_valid format_number _ _ _ _ _ _ _ l hl htag
      rw [hnull] at hm
      simp [nameSeg] at hm
  · intro habs l hl htag
    have hm := tagline_mem_titleSeg parse is_valid format_number _ _ _ _ _ _ _ l hl htag
    rw [show pyGet kvs "titles" (JVal.arr []) = JVal.arr [] by simp [pyGet, habs]] at hm
    simp [titleSeg, jarrElems] at hm
  · intro habs l hl htag
    have hm := tagline_mem_orgSeg parse is_valid format_number _ _ _ _ _ _ _ l hl htag
    rw [show pyGet kvs "organization" JVal.null = JVal.null by simp [pyGet, habs]] at hm
    simp [orgSeg, pyTruthy] at hm
  · intro habs l hl htag
    have hm := tagline_mem_telSeg parse is_valid format_number _ _ _ _ _ _ _ l hl htag
    unfold telSeg at hm
    rw [habs] at hm
    simp at hm
  · intro habs l hl htag
    have hm := tagline_mem_emailSeg parse is_valid format_number _ _ _ _ _ _ _ l hl htag
    rw [show pyGet kvs "email" JVal.null = JVal.null by simp [pyGet, habs]] at hm
    simp [emailSeg, pyTruthy] at hm
  · intro habs l hl htag
    have hm := tagline_mem_adrSeg parse is_valid format_number _ _ _ _ _ _ _ l hl htag
    rw [show pyGet kvs "address" JVal.null = JVal.null by simp [pyGet, habs]] at hm
    simp [adrSeg, pyTruthy] at hm
  · intro habs l hl htag
    have hm := tagline_mem_urlSeg parse is_valid format_number _ _ _ _ _ _ _ l hl htag
    rw [show pyGet kvs "url" JVal.null = JVal.null by simp [pyGet, habs]] at hm
    simp [urlSeg, pyTruthy] at hm

/-- Witness for C3 at the record `{"name": "Ada", "email": "a@b.c"}`. -/
theorem c3_witness :
    create_vcf_lines (fun (_ _ : String) => (none : Option Unit)) (fun _ => true)
      (fun _ => "") [("name", .str "Ada"), ("email", .str "a@b.c")]
      = .ok (["BEGIN:VCARD", "VERSION:3.0"]
          ++ nameSeg (.str "Ada") ++ titleSeg (.arr []) ++ orgSeg .null
          ++ telSeg (fun (_ _ : String) => (none : Option Unit)) (fun _ => true)
              (fun _ => "") (.arr [])
          ++ emailSeg (.str "a@b.c") ++ adrSeg .null ++ urlSeg .null
          ++ ["END:VCARD"]) := by
  obtain ⟨ls, hok, hdec, _⟩ := c3_fixed_order_and_absence
    (fun (_ _ : String) => (none : Option Unit)) (fun _ => true) (fun _ => "")
    [("name", .str "Ada"), ("email", .str "a@b.c")] (by decide)
  rw [hok, hdec]
  rfl

/-! ### C9 — empty values behave like absent fields -/

/-- C9: a present optional field whose value is the empty string (or
the empty list, for `titles`/`phone_numbers`) produces no line, exactly
like an absent field: `name = ""` yields no `N:`/`FN:` line, and empty
`organization`, `email`, `address`, `url`, `titles`, `phone_numbers`
likewise yield no line of their tag. -/
theorem c9_empty_like_absent {P : Type} (parse : String → String → Option P)
    (is_valid : P → Bool) (format_number : P → String)
    (kvs : List (String × JVal)) (hw : wellShapedContact kvs = true) :
    ∃ ls, create_vcf_lines parse is_valid format_number kvs = .ok ls
      ∧ (jget kvs "name" = some (.str "") →
          ∀ l ∈ ls, ¬ IsTagLine "N:" l ∧ ¬ IsTagLine "FN:" l)
      ∧ (jget kvs "titles" = some (.arr []) → ∀ l ∈ ls, ¬ IsTagLine "TITLE:" l)
      ∧ (jget kvs "organization" = some (.str "") → ∀ l ∈ ls, ¬ IsTagLine "ORG:" l)
      ∧ (jget kvs "phone_numbers" = some (.arr []) →
          ∀ l ∈ ls, ¬ IsTagLine "TEL;TYPE=CELL:" l)
      ∧ (jget kvs "email" = some (.str "") → ∀ l ∈ ls, ¬ IsTagLine "EMAIL:" l)
      ∧ (jget kvs "address" = some (.str "") → ∀ l ∈ ls, ¬ IsTagLine "ADR:" l)
      ∧ (jget kvs "url" = some (.str "") → ∀ l ∈ ls, ¬ IsTagLine "URL:" l) := by
  obtain ⟨h1, h2, h3⟩ := wellShaped_fields kvs hw
  have hls := create_vcf_lines_eq parse is_valid format_number kvs h1 h2 h3
  refine ⟨_, hls, ?_, ?_, ?_, ?_, ?_, ?_, ?_⟩
  · intro habs l hl
    have hempty : pyGet kvs "name" JVal.null = JVal.str "" := by simp [pyGet, habs]
    constructor
    · intro htag
      have hm := tagline_mem_nameSeg_n parse is_valid format_number _ _ _ _ _ _ _ l hl htag
      rw [hempty] at hm
      simp [nameSeg] at hm
    · intro htag
      have hm := tagline_mem_nameSeg_fn parse is_valid format_number _ _ _ _ _ _ _ l hl htag
      rw [hempty] at hm
      simp [nameSeg] at hm
  · intro habs l hl htag
    have hm := tagline_mem_titleSeg parse is_valid format_number _ _ _ _ _ _ _ l hl htag
    rw [show pyGet kvs "titles" (JVal.arr []) = JVal.arr [] by simp [pyGet, habs]] at hm
    simp [titleSeg, jarrElems] at hm
  · intro habs l hl htag
    have hm := tagline_mem_orgSeg parse is_valid format_number _ _ _ _ _ _ _ l hl htag
    rw [show pyGet kvs "organization" JVal.null = JVal.str "" by simp [pyGet, habs]] at hm
    simp [orgSeg, pyTruthy] at hm
  · intro habs l hl htag
    have hm := tagline_mem_telSeg parse is_valid format_number _ _ _ _ _ _ _ l hl htag
    rw [show pyGet kvs "phone_numbers" (JVal.arr []) = JVal.arr []
      by simp [pyGet, habs]] at hm
    simp [telSeg, jarrElems, normalize_phone_numbers] at hm
  · intro habs l hl htag
    have hm := tagline_mem_emailSeg parse is_valid format_number _ _ _ _ _ _ _ l hl htag
    rw [show pyGet kvs "email" JVal.null = JVal.str "" by simp [pyGet, habs]] at hm
    simp [emailSeg, pyTruthy] at hm
  · intro habs l hl htag
    have hm := tagline_mem_adrSeg parse is_valid format_number _ _ _ _ _ _ _ l hl htag
    rw [show pyGet kvs "address" JVal.null = JVal.str "" by simp [pyGet, habs]] at hm
    simp [adrSeg, pyTruthy] at hm
  · intro habs l hl htag
    have hm := tagline_mem_urlSeg parse is_valid format_number _ _ _ _ _ _ _ l hl htag
    rw [show pyGet kvs "url" JVal.null = JVal.str "" by simp [pyGet, habs]] at hm
    simp [urlSeg, pyTruthy] at hm

/-- Witness for C9: the record with `name = ""` serializes, and its
first line is no `N:` line. -/
theorem c9_witness : ¬ IsTagLine "N:" "BEGIN:VCARD" := by
  obtain ⟨ls, hok, hname, _⟩ := c9_empty_like_absent
    (fun (_ _ : String) => (none : Option Unit)) (fun _ => true) (fun _ => "")
    [("name", .str "")] (by decide)
  have hc : create_vcf_lines (fun (_ _ : String) => (none : Option Unit))
      (fun _ => true) (fun _ => "") [("name", .str "")]
      = .ok ["BEGIN:VCARD", "VERSION:3.0", "END:VCARD"] := rfl
  rw [hc] at hok
  injection hok with hok
  exact (hname rfl "BEGIN:VCARD" (by rw [← hok]; simp)).1

/-! ### C1 — fail-soft parsing -/

/-- C1 counterexample: in `src/backend/app.py` the extraction parser
does not return the placeholder record on unparseable content — the
`json.loads` failure propagates, and the route handler surfaces it as
an `{"error": …}` body.  The stub `jsonParse` agrees with `json.loads`
on the only string it is applied to: `process_content "not json"
= "not json"`, which is not valid JSON, so `json.loads` raises. -/
theorem c1_counterexample :
    extract_business_card_info_backend (fun _ => none) (.ok "not json")
      = .error "JSONDecodeError: Expecting value"
    ∧ extract_business_card_info_backend (fun _ => none) (.ok "not json")
      ≠ .ok placeholder_record
    ∧ upload_image_backend "image/jpeg" (.ok "yes") (fun _ => none) (.ok "not json")
      = .obj [("error",
          .str "Error processing image: JSONDecodeError: Expecting value")] := by
  refine ⟨rfl, ?_, rfl⟩
  intro h
  rw [show extract_business_card_info_backend (fun _ => none) (.ok "not json")
      = Except.error "JSONDecodeError: Expecting value" from rfl] at h
  exact Except.noConfusion h

/-- C1 (amended): in the serverless parser (`src/api/upload.py`), a
response whose content is not valid JSON after unwrapping yields the
placeholder record, and the handler writes that record — never a parse
error — as the response body.  In the FastAPI variant the parse
exception instead reaches the route handler (see the
counterexample). -/
theorem c1_amended_api_placeholder (jsonParse : String → Option JVal) (raw : String)
    (h : jsonParse (process_content raw) = none) :
    extract_business_card_info_api jsonParse (.ok raw) = .ok placeholder_record
    ∧ do_POST_upload_api (.ok "yes") jsonParse (.ok raw) = placeholder_record := by
  have he : extract_business_card_info_api jsonParse (.ok raw) = .ok placeholder_record := by
    simp [extract_business_card_info_api, h]
  have hy : is_card_response "yes" = true := by decide
  exact ⟨he, by simp [do_POST_upload_api, hy, he]⟩

/-- Witness for C1 (amended) at the raw response `"not json"`. -/
theorem c1_witness :
    extract_business_card_info_api (fun _ => none) (.ok "not json")
      = .ok placeholder_record
    ∧ do_POST_upload_api (.ok "yes") (fun _ => none) (.ok "not json")
      = placeholder_record :=
  c1_amended_api_placeholder (fun _ => none) "not json" rfl

/-! ### C2 — fail-open classification -/

/-- C2 counterexample: in `src/backend/app.py` a failing classification
call does not fall through to extraction — the handler returns an
`{"error": "Error processing image: …"}` body instead of the record the
extraction stage would have produced (here `[1]`, whose `json.loads`
value the stub returns). -/
theorem c2_counterexample :
    upload_image_backend "image/jpeg" (.error "boom")
        (fun s => if s = "[1]" then some (.arr [.num 1]) else none) (.ok "[1]")
      = .obj [("error", .str "Error processing image: boom")]
    ∧ upload_image_backend "image/jpeg" (.error "boom")
        (fun s => if s = "[1]" then some (.arr [.num 1]) else none) (.ok "[1]")
      ≠ .arr [.num 1] := by
  refine ⟨rfl, ?_⟩
  intro h
  rw [show upload_image_backend "image/jpeg" (.error "boom")
        (fun s => if s = "[1]" then some (.arr [.num 1]) else none) (.ok "[1]")
      = JVal.obj [("error", .str "Error processing image: boom")] from rfl] at h
  exact JVal.noConfusion h

/-- C2 (amended): the serverless handler (`src/api/upload.py`) is
fail-open — a classification-call failure is swallowed and the request
behaves exactly as if the classifier had answered `"yes"`, proceeding
to extraction; the FastAPI handler (`src/backend/app.py`) instead
surfaces the failure as an error body and never reaches extraction. -/
theorem c2_amended_fail_open (e : String) (jsonParse : String → Option JVal)
    (chat : Except String String) :
    do_POST_upload_api (.error e) jsonParse chat
      = do_POST_upload_api (.ok "yes") jsonParse chat
    ∧ upload_image_backend "image/jpeg" (.error e) jsonParse chat
      = .obj [("error", .str ("Error processing image: " ++ e))] := by
  have hy : is_card_response "yes" = true := by decide
  have himg : pyStartsWith "image/jpeg" "image/" = true := by decide
  exact ⟨by simp [do_POST_upload_api, hy], by simp [upload_image_backend, himg]⟩

/-! ### C5 — code-fence stripping -/

/-- A pattern longer than the text is not a prefix of it. -/
theorem isPrefixOf_false_of_lt (a l : List Char) (h : l.length < a.length) :
    a.isPrefixOf l = false := by
  cases hpre : a.isPrefixOf l with
  | false => rfl
  | true => exact absurd (List.isPrefixOf_iff_prefix.mp hpre).length_le (by omega)

/-- A prefix of `x ++ y` no longer than `x` is a prefix of `x`. -/
theorem isPrefixOf_of_append_le (a x y : List Char)
    (h : a.isPrefixOf (x ++ y) = true) (hlen : a.length ≤ x.length) :
    a.isPrefixOf x = true := by
  rw [List.isPrefixOf_iff_prefix] at h ⊢
  exact List.prefix_of_prefix_length_le h (List.prefix_append x y) hlen

/-- The last element of `(range n).filter q` is the largest index below
`n` satisfying `q`. -/
theorem getLast?_filter_range (q : Nat → Bool) (k : Nat) :
    ∀ n, k < n → q k = true → (∀ j, k < j → j < n → q j = false) →
      ((List.range n).filter q).getLast? = some k := by
  intro n
  induction n with
  | zero => intro h; omega
  | succ m ih =>
    intro hk hq hgt
    rw [List.range_succ, List.filter_append]
    by_cases hkm : k = m
    · subst hkm
      rw [show List.filter q [k] = [k] by simp [hq]]
      exact List.getLast?_concat _
    · have hkm' : k < m := by omega
      have hqm : q m = false := hgt m hkm' (by omega)
      rw [show List.filter q [m] = [] by simp [hqm], List.append_nil]
      exact ih hkm' hq (fun j hj hjm => hgt j hj (by omega))

/-- `"json"` does not occur in `'\n' :: (pd ++ ['\n'])` when it does
not occur in `pd`. -/
theorem jsonTag_not_in_wrap (pd : List Char)
    (h : containsSeq jsonTag pd = false) :
    ∀ i, jsonTag.isPrefixOf (('\n' :: (pd ++ ['\n'])).drop i) = false := by
  have hj4 : jsonTag.length = 4 := rfl
  have hmem : ∀ i, jsonTag.isPrefixOf (pd.drop i) = false := by
    intro i
    by_cases hi : i < pd.length + 1
    · have hne := List.any_eq_false.mp h i (List.mem_range.mpr hi)
      cases hpre : jsonTag.isPrefixOf (pd.drop i) with
      | false => rfl
      | true => exact absurd hpre hne
    · apply isPrefixOf_false_of_lt
      rw [List.length_drop, hj4]
      omega
  intro i
  match i with
  | 0 => rfl
  | Nat.succ i' =>
    rw [show ('\n' :: (pd ++ ['\n'])).drop (i' + 1) = (pd ++ ['\n']).drop i' from rfl]
    by_cases hlen : i' < pd.length
    · rw [List.drop_append_of_le_length (by omega)]
      by_cases hfit : jsonTag.length ≤ (pd.drop i').length
      · cases hpre : jsonTag.isPrefixOf (pd.drop i' ++ ['\n']) with
        | false => rfl
        | true =>
          have := isPrefixOf_of_append_le jsonTag (pd.drop i') ['\n'] hpre hfit
          rw [hmem i'] at this
          exact Bool.noConfusion this
      · by_cases h3 : (pd.drop i').length = 3
        · cases hpre : jsonTag.isPrefixOf (pd.drop i' ++ ['\n']) with
          | false => rfl
          | true =>
            have hplen : jsonTag.length = (pd.drop i' ++ ['\n']).length := by
              rw [List.length_append, h3, hj4]
              rfl
            have heq : jsonTag = pd.drop i' ++ ['\n'] :=
              (List.isPrefixOf_iff_prefix.mp hpre).eq_of_length hplen
            have hlast := congrArg List.getLast? heq
            rw [List.getLast?_concat] at hlast
            exact absurd hlast (by decide)
        · apply isPrefixOf_false_of_lt
          rw [List.length_append, hj4]
          rw [hj4] at hfit
          have : (pd.drop i').length ≤ 3 := by omega
          simp only [List.length_singleton]
          omega
    · apply isPrefixOf_false_of_lt
      rw [List.length_drop, List.length_append, hj4]
      simp only [List.length_singleton]
      omega

/-- When `"json"` does not occur after the leading tag, the
`split("json")[-1]` step keeps exactly the text after that tag. -/
theorem afterLastSeq_concrete (pd : List Char)
    (h : ∀ i, jsonTag.isPrefixOf (('\n' :: (pd ++ ['\n'])).drop i) = false) :
    afterLastSeq jsonTag (jsonTag ++ '\n' :: (pd ++ ['\n']))
      = '\n' :: (pd ++ ['\n']) := by
  have hq0 : jsonTag.isPrefixOf
      ((jsonTag ++ '\n' :: (pd ++ ['\n'])).drop 0) = true := by
    rw [List.drop_zero, List.isPrefixOf_iff_prefix]
    exact List.prefix_append _ _
  have hq : ∀ j, 0 < j → j < (jsonTag ++ '\n' :: (pd ++ ['\n'])).length + 1 →
      jsonTag.isPrefixOf ((jsonTag ++ '\n' :: (pd ++ ['\n'])).drop j) = false := by
    intro j hj0 hjn
    match j, hj0 with
    | 1, _ => rfl
    | 2, _ => rfl
    | 3, _ => rfl
    | (j' + 4), _ =>
      have harith : j' + 4 = jsonTag.length + j' := by
        rw [show jsonTag.length = 4 from rfl]
        omega
      rw [harith, List.drop_append]
      exact h j'
  unfold afterLastSeq
  rw [getLast?_filter_range _ 0 _ (Nat.succ_pos _) hq0 hq]
  rfl

/-- If stripping both edges of `l` leaves `l` unchanged, neither edge
had strippable characters. -/
theorem dropWhile_eq_self_of_stripEdges (q : Char → Bool) (l : List Char)
    (h : stripEdges q l = l) :
    l.dropWhile q = l ∧ l.reverse.dropWhile q = l.reverse := by
  have h1 : (l.dropWhile q).length ≤ l.length :=
    (List.dropWhile_suffix q).length_le
  have h2 : ((l.dropWhile q).reverse.dropWhile q).length
      ≤ (l.dropWhile q).length := by
    have := (List.dropWhile_suffix (l := (l.dropWhile q).reverse) q).length_le
    simpa using this
  have h3 : (stripEdges q l).length = l.length := by rw [h]
  have h4 : (stripEdges q l).length
      = ((l.dropWhile q).reverse.dropWhile q).length := by
    simp [stripEdges]
  have h5 : (l.dropWhile q).length = l.length := by omega
  have h6 : l.dropWhile q = l := (List.dropWhile_suffix q).eq_of_length h5
  refine ⟨h6, ?_⟩
  have h7 : stripEdges q l = (l.reverse.dropWhile q).reverse := by
    rw [stripEdges, h6]
  have h8 : (l.reverse.dropWhile q).reverse = l := by rw [← h7, h]
  have h9 := congrArg List.reverse h8
  simpa using h9

/-- Edge-stripping fixes a list whose two end characters are not
strippable. -/
theorem stripEdges_cons_concat (q : Char → Bool) (a b : Char) (m : List Char)
    (ha : q a = false) (hb : q b = false) :
    stripEdges q (a :: (m ++ [b])) = a :: (m ++ [b]) := by
  unfold stripEdges
  rw [List.dropWhile_cons, if_neg (by simp [ha])]
  rw [show (a :: (m ++ [b])).reverse = b :: (m.reverse ++ [a]) by simp]
  rw [List.dropWhile_cons, if_neg (by simp [hb])]
  rw [show (b :: (m.reverse ++ [a])).reverse = a :: (m ++ [b]) by simp]

/-- The fenced chat response is already whitespace-trimmed. -/
theorem pyStrip_fenced (p : String) :
    pyStrip ("\x60\x60\x60json\n" ++ p ++ "\n\x60\x60\x60")
      = "\x60\x60\x60json\n" ++ p ++ "\n\x60\x60\x60" := by
  unfold pyStrip
  have hshape : ("\x60\x60\x60json\n" ++ p ++ "\n\x60\x60\x60").data
      = '\x60' :: ((['\x60', '\x60', 'j', 's', 'o', 'n', '\n']
          ++ p.data ++ ['\n', '\x60', '\x60']) ++ ['\x60']) := by
    simp [String.data_append]
  rw [hshape, stripEdges_cons_concat pyIsSpace _ _ _ (by decide) (by decide),
    ← hshape]

/-- Stripping backticks from the fenced response leaves the `json` tag,
the payload and the surrounding newlines. -/
theorem stripBackticks_fenced (p : String) :
    stripEdges (fun ch => ch = '\x60')
        ("\x60\x60\x60json\n" ++ p ++ "\n\x60\x60\x60").data
      = jsonTag ++ '\n' :: (p.data ++ ['\n']) := by
  unfold stripEdges
  rw [show ("\x60\x60\x60json\n" ++ p ++ "\n\x60\x60\x60").data.dropWhile
        (fun ch => ch = '\x60')
      = "json\n".data ++ (p.data ++ ['\n', '\x60', '\x60', '\x60']) from rfl]
  rw [List.reverse_append, List.reverse_append, List.append_assoc]
  rw [show (['\n', '\x60', '\x60', '\x60'] : List Char).reverse
      = ['\x60', '\x60', '\x60', '\n'] from rfl]
  rw [show List.dropWhile (fun ch => ch = '\x60')
        (['\x60', '\x60', '\x60', '\n']
          ++ (p.data.reverse ++ "json\n".data.reverse))
      = '\n' :: (p.data.reverse ++ "json\n".data.reverse) from rfl]
  rw [List.reverse_cons, List.reverse_append, List.reverse_reverse,
    List.reverse_reverse]
  simp [jsonTag, List.append_assoc]

/-- Final trim of the unwrapped payload: the guarding newlines go away
and a trimmed payload survives unchanged. -/
theorem stripEdges_wrap (pd : List Char)
    (hld : pd.dropWhile pyIsSpace = pd)
    (hrd : pd.reverse.dropWhile pyIsSpace = pd.reverse) :
    stripEdges pyIsSpace ('\n' :: (pd ++ ['\n'])) = pd := by
  cases pd with
  | nil => rfl
  | cons c pd' =>
    have hc : pyIsSpace c = false := by
      cases hcc : pyIsSpace c with
      | false => rfl
      | true =>
        rw [List.dropWhile_cons, if_pos hcc] at hld
        have h1 := congrArg List.length hld
        have h2 : (pd'.dropWhile pyIsSpace).length ≤ pd'.length :=
          (List.dropWhile_suffix pyIsSpace).length_le
        simp at h1
        omega
    unfold stripEdges
    rw [show List.dropWhile pyIsSpace ('\n' :: ((c :: pd') ++ ['\n']))
        = List.dropWhile pyIsSpace ((c :: pd') ++ ['\n']) by
      rw [List.dropWhile_cons, if_pos (by decide)]]
    rw [show (c :: pd') ++ ['\n'] = c :: (pd' ++ ['\n']) from rfl]
    rw [List.dropWhile_cons, if_neg (by simp [hc])]
    rw [show (c :: (pd' ++ ['\n'])).reverse = '\n' :: ((c :: pd').reverse) by simp]
    rw [List.dropWhile_cons, if_pos (by decide)]
    rw [hrd, List.reverse_reverse]

/-- String-level version of `stripEdges_wrap`. -/
theorem pyStrip_wrap (p : String) (htrim : pyStrip p = p) :
    pyStrip (String.mk ('\n' :: (p.data ++ ['\n']))) = p := by
  have hdata : stripEdges pyIsSpace p.data = p.data := by
    have h := congrArg String.data htrim
    simpa [pyStrip] using h
  obtain ⟨hld, hrd⟩ := dropWhile_eq_self_of_stripEdges pyIsSpace p.data hdata
  unfold pyStrip
  rw [show (String.mk ('\n' :: (p.data ++ ['\n']))).data
      = '\n' :: (p.data ++ ['\n']) from rfl]
  rw [stripEdges_wrap p.data hld hrd]

/-- A response that does not begin with three backticks after trimming
is only trimmed. -/
theorem process_content_plain (raw : String)
    (hfence : pyStartsWith (pyStrip raw) "\x60\x60\x60" = false) :
    process_content raw = pyStrip raw := by
  simp [process_content, hfence]

/-- Unwrapping a fenced payload recovers the payload, provided the
payload is trimmed and does not contain the substring `json`. -/
theorem process_content_fenced (p : String)
    (htrim : pyStrip p = p)
    (hjson : containsSeq jsonTag p.data = false) :
    process_content ("\x60\x60\x60json\n" ++ p ++ "\n\x60\x60\x60") = p := by
  unfold process_content
  rw [pyStrip_fenced p]
  rw [if_pos (show pyStartsWith ("\x60\x60\x60json\n" ++ p ++ "\n\x60\x60\x60")
      "\x60\x60\x60" = true from rfl)]
  rw [stripBackticks_fenced p]
  rw [afterLastSeq_concrete p.data (jsonTag_not_in_wrap p.data hjson)]
  exact pyStrip_wrap p htrim

/-- C5 (amended): the parser strips backticks only when the trimmed
text begins with three of them (any shorter run is left alone), removes
only leading and trailing backticks, keeps the text after the last
occurrence of `json` and trims again.  Consequently a payload wrapped
in a triple-backtick `json` fence parses identically to the unwrapped
payload whenever the payload is trimmed, does not itself begin with
three backticks, and does not contain the substring `json`. -/
theorem c5_amended_fence_stripping (jsonParse : String → Option JVal) (p : String)
    (htrim : pyStrip p = p)
    (hfence : pyStartsWith p "\x60\x60\x60" = false)
    (hjson : containsSeq jsonTag p.data = false) :
    (∀ raw, pyStartsWith (pyStrip raw) "\x60\x60\x60" = false →
        process_content raw = pyStrip raw)
    ∧ process_content ("\x60\x60\x60json\n" ++ p ++ "\n\x60\x60\x60") = p
    ∧ extract_business_card_info_api jsonParse
        (.ok ("\x60\x60\x60json\n" ++ p ++ "\n\x60\x60\x60"))
      = extract_business_card_info_api jsonParse (.ok p) := by
  have hw : process_content ("\x60\x60\x60json\n" ++ p ++ "\n\x60\x60\x60") = p :=
    process_content_fenced p htrim hjson
  have hp : process_content p = p := by
    rw [process_content_plain p (by rw [htrim]; exact hfence)]
    exact htrim
  refine ⟨fun raw h => process_content_plain raw h, hw, ?_⟩
  simp [extract_business_card_info_api, hw, hp]

/-- C5 counterexample: the code deviates from the claim in three ways.
A two-backtick run is not stripped at all (`startswith("```")`), an
interior backtick survives (`strip("`")` only touches the ends), and a
fenced payload that itself contains `json` does not parse like the
unwrapped payload, because `split("json")[-1]` cuts at the payload's
own `json` occurrence and the remnant falls back to the placeholder
record.  The stub `jsonParse` agrees with `json.loads` on the two
strings it is applied to (`"json"` is valid JSON for the string
`json`; the remnant `"` is not valid JSON). -/
theorem c5_counterexample :
    (claimed_process_content "\x60\x60[1]" = "[1]"
      ∧ process_content "\x60\x60[1]" = "\x60\x60[1]"
      ∧ process_content "\x60\x60[1]" ≠ claimed_process_content "\x60\x60[1]")
    ∧ (claimed_process_content "\x60\x60\x60a\x60b\x60\x60\x60" = "ab"
      ∧ process_content "\x60\x60\x60a\x60b\x60\x60\x60" = "a\x60b")
    ∧ extract_business_card_info_api
        (fun s => if s = "\"json\"" then some (.str "json") else none)
        (.ok "\x60\x60\x60json\n\"json\"\n\x60\x60\x60") = .ok placeholder_record
    ∧ extract_business_card_info_api
        (fun s => if s = "\"json\"" then some (.str "json") else none)
        (.ok "\"json\"") = .ok (.str "json")
    ∧ placeholder_record ≠ JVal.str "json" := by
  refine ⟨⟨by decide, by decide, by decide⟩, ⟨by decide, by decide⟩, rfl, rfl, ?_⟩
  intro h
  exact JVal.noConfusion h

/-- Witness for C5 (amended) at the payload `"[1]"`. -/
theorem c5_witness :
    process_content ("\x60\x60\x60json\n" ++ "[1]" ++ "\n\x60\x60\x60") = "[1]"
    ∧ extract_business_card_info_api (fun _ => none)
        (.ok ("\x60\x60\x60json\n" ++ "[1]" ++ "\n\x60\x60\x60"))
      = extract_business_card_info_api (fun _ => none) (.ok "[1]") := by
  have h := c5_amended_fence_stripping (fun _ => none) "[1]"
    (by decide) (by decide) (by decide)
  exact ⟨h.2.1, h.2.2⟩

/-- Witness for C2 (amended) at a concrete failing classification. -/
theorem c2_witness :
    do_POST_upload_api (.error "boom") (fun _ => none) (.ok "x")
      = do_POST_upload_api (.ok "yes") (fun _ => none) (.ok "x") :=
  (c2_amended_fail_open "boom" (fun _ => none) (.ok "x")).1
